import Mathlib

/-!
Face-swap client: submission, polling and the status log.

A shallow embedding of `frontend/config.js` and `frontend/assets/js/main.js`.

* JSON values received from the service are values of `Json`; a JavaScript
  value that may be `undefined` is an `Option Json` (`none` is `undefined`).
* The module-level variables `statusItems` and `statusIdCounter` are the two
  fields of `StatusLog`; the functions that mutate them take and return a log.
* Network and clock are oracles: a `FetchOutcome` per request, a clock
  reading per `Date.now()`.
* Converting a JSON value to a string (template literals, `new Error`) can
  throw: `Json.toStr` is partial, and every place where the code converts job
  data inside a `try` block has its throwing path.
* DOM rendering (`updateStatusPanel`, `showResult`, `showMessage`, ...) has no
  effect on the modelled state and is left out, except that rendering the
  result reference of a completed job converts it to a string
  (`finishCompleted`). The page is taken to define the elements the script
  looks up, and the entries already in the log are taken to render.
* `handleProcessImage` is modelled twice: as one run from its call to its end
  (`handleProcessImage`, with fuel for the poll loop), and as an event-driven
  system (`Page.step`) in which the call is suspended at each `await` and
  other handlers run in between.
-/

namespace FaceSwap

/-! ## JavaScript values -/

/-- JSON values as produced by `response.json()`. `num n` is the number `n`;
the numbers covered are the integers of magnitude at most 2^53, which
JavaScript holds exactly and prints in decimal. -/
inductive Json where
  | null : Json
  | bool (b : Bool) : Json
  | num (n : Int) : Json
  | str (s : String) : Json
  | arr (xs : List Json) : Json
  | obj (kvs : List (String × Json)) : Json

/-- An `Error` object: the two properties the code reads. -/
structure JsError where
  name : String
  message : String
deriving DecidableEq, Repr

/-- Last binding of a key: `JSON.parse` keeps the last duplicate. -/
def lookupLast : List (String × Json) → String → Option Json
  | [], _ => none
  | (k, v) :: rest, key =>
    match lookupLast rest key with
    | some w => some w
    | none => if k = key then some v else none

/-- Property read `v.key` on a non-null value, for the property names the
code reads (`detail`, `error`, `message`, `task_id`, `task_status`, `status`,
`progress`, `result_url`, `template_name`): own property of an object,
`undefined` on arrays and primitives. -/
def Json.get : Json → String → Option Json
  | .obj kvs, key => lookupLast kvs key
  | _, _ => none

/-- The `TypeError` of a property read on `null` or `undefined` (V8 wording). -/
def typeErrorRead (base prop : String) : JsError :=
  ⟨"TypeError", "Cannot read properties of " ++ base ++ " (reading '" ++ prop ++ "')"⟩

/-- Property read `v.key` where `v` may be `null` or `undefined`. -/
def readProp (v : Option Json) (key : String) : Except JsError (Option Json) :=
  match v with
  | none => .error (typeErrorRead "undefined" key)
  | some .null => .error (typeErrorRead "null" key)
  | some w => .ok (w.get key)

/-- JavaScript truthiness. -/
def truthy : Option Json → Bool
  | none => false
  | some .null => false
  | some (.bool b) => b
  | some (.num n) => n != 0
  | some (.str s) => s != ""
  | some (.arr _) => true
  | some (.obj _) => true

/-- The `TypeError` that `ToString` throws on an object with no callable
`toString` and no `valueOf` giving a primitive (V8 wording). -/
def toPrimitiveError : JsError :=
  ⟨"TypeError", "Cannot convert object to primitive value"⟩

/-- Does the parsed object have an own property of this name? -/
def hasOwnKey (kvs : List (String × Json)) (key : String) : Bool :=
  (lookupLast kvs key).isSome

mutual
/-- JavaScript `ToString(v)` for a JSON value; `none` when it throws
`toPrimitiveError`. A parsed object prints as "[object Object]" through
`Object.prototype.toString`, unless it has an own `toString` property: that
one is JSON data, not callable, and `valueOf` gives no primitive, so the
conversion throws. An array prints its elements joined by commas. -/
def Json.toStr : Json → Option String
  | .null => some "null"
  | .bool b => some (if b then "true" else "false")
  | .num n => some (toString n)
  | .str s => some s
  | .arr xs => Json.joinStr xs
  | .obj kvs => if hasOwnKey kvs "toString" then none else some "[object Object]"
/-- `Array.prototype.join(",")`: `null` elements print as the empty string. -/
def Json.joinStr : List Json → Option String
  | [] => some ""
  | [x] => Json.elemStr x
  | x :: y :: rest =>
    match Json.elemStr x with
    | none => none
    | some a =>
      match Json.joinStr (y :: rest) with
      | none => none
      | some b => some (a ++ "," ++ b)
/-- One array element inside `join`. -/
def Json.elemStr : Json → Option String
  | .null => some ""
  | .bool b => some (if b then "true" else "false")
  | .num n => some (toString n)
  | .str s => some s
  | .arr xs => Json.joinStr xs
  | .obj kvs => if hasOwnKey kvs "toString" then none else some "[object Object]"
end

/-- JavaScript `ToString(v)`, as a template literal applies it; `none` when
it throws `toPrimitiveError`. -/
def jsToString : Option Json → Option String
  | none => some "undefined"
  | some v => v.toStr

/-- The operator `a || b` with a string right operand. -/
def jsOr (a : Option Json) (b : String) : Json :=
  if truthy a then a.getD (.str b) else .str b

/-- What `throw new Error(v)` throws: the `Error` whose message is
`ToString(v)`, or the `TypeError` of that conversion. -/
def newError (v : Json) : JsError :=
  match v.toStr with
  | some message => ⟨"Error", message⟩
  | none => toPrimitiveError

/-- The method `s.includes(pat)`. -/
def includes (s pat : String) : Bool :=
  s.data.tails.any (fun t => pat.data.isPrefixOf t)

/-! ## Status log (`main.js` 720-810) -/

/-- One entry of `statusItems`. -/
structure StatusItem where
  id : Nat
  title : String
  description : String
  type : String
  timestamp : Nat
  resultUrl : Option Json
  templateName : Option Json

/-- The object passed to `updateStatusItem`: the properties it defines. -/
structure Updates where
  id : Option Nat := none
  title : Option String := none
  description : Option String := none
  type : Option String := none
  timestamp : Option Nat := none
  resultUrl : Option (Option Json) := none
  templateName : Option (Option Json) := none

/-- The two module variables `statusItems` and `statusIdCounter`. -/
structure StatusLog where
  statusItems : List StatusItem
  statusIdCounter : Nat

/-- The initial value: `statusItems = []`, `statusIdCounter = 0`. -/
def StatusLog.empty : StatusLog := ⟨[], 0⟩

/-- The call `Object.assign(item, updates)`. -/
def assign (item : StatusItem) (u : Updates) : StatusItem :=
  { id := u.id.getD item.id
    title := u.title.getD item.title
    description := u.description.getD item.description
    type := u.type.getD item.type
    timestamp := u.timestamp.getD item.timestamp
    resultUrl := u.resultUrl.getD item.resultUrl
    templateName := u.templateName.getD item.templateName }

/-- `addStatusItem(title, description, type)`: the new log and the returned
id. `now` is the value of `new Date()`. -/
def addStatusItem (log : StatusLog) (title description type : String) (now : Nat) :
    StatusLog × Nat :=
  let statusId := log.statusIdCounter + 1
  let statusItem : StatusItem :=
    { id := statusId, title := title, description := description, type := type,
      timestamp := now, resultUrl := some .null, templateName := some .null }
  (⟨log.statusItems ++ [statusItem], statusId⟩, statusId)

/-- Mutate the first item whose id is `statusId`, as `find` + `Object.assign`. -/
def assignFirst (statusId : Nat) (u : Updates) : List StatusItem → List StatusItem
  | [] => []
  | item :: rest =>
    if item.id = statusId then assign item u :: rest
    else item :: assignFirst statusId u rest

/-- `updateStatusItem(statusId, updates)`. -/
def updateStatusItem (log : StatusLog) (statusId : Nat) (u : Updates) : StatusLog :=
  match log.statusItems.find? (fun item => item.id = statusId) with
  | some _ => { log with statusItems := assignFirst statusId u log.statusItems }
  | none => log

/-- `cleanupStatusItems()`: `slice(-5)` when more than five items. -/
def cleanupStatusItems (log : StatusLog) : StatusLog :=
  if log.statusItems.length > 5 then
    { log with statusItems := log.statusItems.drop (log.statusItems.length - 5) }
  else log

/-- A call on the status log. -/
inductive LogOp where
  | add (title description type : String) (now : Nat)
  | update (statusId : Nat) (u : Updates)
  | cleanup

/-- Run one call. -/
def LogOp.run (log : StatusLog) : LogOp → StatusLog
  | .add title description type now => (addStatusItem log title description type now).1
  | .update statusId u => updateStatusItem log statusId u
  | .cleanup => cleanupStatusItems log

/-- Run a sequence of calls, first to last. -/
def runOps (log : StatusLog) (ops : List LogOp) : StatusLog :=
  ops.foldl LogOp.run log

/-- Is the call an `addStatusItem`? -/
def LogOp.isAdd : LogOp → Bool
  | .add .. => true
  | _ => false

/-- Is the call an `addStatusItem`, or an `updateStatusItem` whose updates
leave `id` alone? -/
def LogOp.isPlain : LogOp → Bool
  | .add .. => true
  | .update _ u => u.id.isNone
  | .cleanup => false

/-- Is the call a `cleanupStatusItems`? -/
def LogOp.isCleanup : LogOp → Bool
  | .cleanup => true
  | _ => false

/-- Ids of the log equal `1, 2, ..., statusIdCounter` in list order. -/
def IdsInOrder (log : StatusLog) : Prop :=
  log.statusItems.map StatusItem.id = List.range' 1 log.statusIdCounter

/-- Six `addStatusItem` calls with no update in between. -/
def sixAdds : List LogOp :=
  [.add "AI 換臉處理" "使用模板：模板 1" "processing" 10,
   .add "AI 換臉處理" "使用模板：模板 2" "processing" 20,
   .add "AI 換臉處理" "使用模板：模板 3" "processing" 30,
   .add "AI 換臉處理" "使用模板：模板 4" "processing" 40,
   .add "AI 換臉處理" "使用模板：模板 5" "processing" 50,
   .add "AI 換臉處理" "使用模板：模板 6" "processing" 60]

/-- Six adds with two updates in between, one of them on an unknown id. -/
def sixAddsWithUpdates : List LogOp :=
  [.add "AI 換臉處理" "使用模板：模板 1" "processing" 10,
   .update 1 { type := some "error", description := some "失敗：HTTP 500: " },
   .add "AI 換臉處理" "使用模板：模板 2" "processing" 20,
   .add "AI 換臉處理" "使用模板：模板 3" "processing" 30,
   .update 9 { description := some "x" },
   .add "AI 換臉處理" "使用模板：模板 4" "processing" 40,
   .add "AI 換臉處理" "使用模板：模板 5" "processing" 50,
   .add "AI 換臉處理" "使用模板：模板 6" "processing" 60]

/-! ## Configuration (`config.js`) -/

/-- The keys of `API_CONFIG.REQUEST` that `main.js` reads. A key the object
does not define reads as `undefined`, here `none`. -/
structure RequestConfig where
  TIMEOUT : Option Nat
  MAX_RETRIES : Option Nat
  RETRY_DELAY : Option Nat
  POLL_INTERVAL : Option Nat
  MAX_POLL_TIME : Option Nat

/-- The shipped `API_CONFIG.REQUEST` (`config.js` 15-20): `TIMEOUT` and
`HEADERS` are its only keys. -/
def API_CONFIG.REQUEST : RequestConfig :=
  { TIMEOUT := some 60000, MAX_RETRIES := none, RETRY_DELAY := none,
    POLL_INTERVAL := none, MAX_POLL_TIME := none }

/-- One element of `TEMPLATE_CONFIG.TEMPLATES`. -/
structure Template where
  id : String
  name : String
  description : String
  color : String
  image : String

/-- The catalog `TEMPLATE_CONFIG.TEMPLATES` (`config.js` 37-82). -/
def TEMPLATE_CONFIG.TEMPLATES : List Template :=
  [⟨"1", "模板 1", "專業商務風格", "#2c3e50", "assets/images/templates/step01.jpg"⟩,
   ⟨"2", "模板 2", "時尚潮流風格", "#e74c3c", "assets/images/templates/step02.jpg"⟩,
   ⟨"3", "模板 3", "輕鬆休閒風格", "#3498db", "assets/images/templates/step03.jpg"⟩,
   ⟨"4", "模板 4", "優雅知性風格", "#9b59b6", "assets/images/templates/step04.jpg"⟩,
   ⟨"5", "模板 5", "活力運動風格", "#1abc9c", "assets/images/templates/step05.jpg"⟩,
   ⟨"6", "模板 6", "青春學院風格", "#f39c12", "assets/images/templates/step06.jpg"⟩]

/-- The comparison `a < b` of a number with a configuration value:
`undefined` converts to `NaN` and the comparison is false. -/
def jsLt (a : Int) (b : Option Nat) : Bool :=
  match b with
  | none => false
  | some n => decide (a < (n : Int))

/-! ## Transport: submission (`main.js` 365-444) -/

/-- What one `fetch` call (with its body read) gives: the promise rejects
(`AbortError` when the timeout aborts it, `TypeError` on a network failure),
or a response arrives; `body` is the result of `response.json()`, an error
when the text is not JSON. -/
inductive FetchOutcome where
  | rejected (e : JsError)
  | response (status : Nat) (statusText : String) (body : Except JsError Json)

/-- `response.ok`: the status is in 200..299. -/
def responseOk (status : Nat) : Bool := decide (200 ≤ status) && decide (status ≤ 299)

/-- `typeof v === 'object'`. -/
def isObjectType : Json → Bool
  | .null => true
  | .arr _ => true
  | .obj _ => true
  | _ => false

/-- `v === s` for a string literal `s`. -/
def strictEqStr (v : Option Json) (s : String) : Bool :=
  match v with
  | some (.str t) => decide (t = s)
  | _ => false

/-- The message thrown for a 503 whose detail is `queue_full`. -/
def queueFullMessage : String := "系統繁忙，佇列已滿，請稍後再試"

/-- The `try` block of `submitFaceSwapTask` (lines 388-420) on the outcome of
its `fetch`: the returned JSON, or the error thrown inside the block. -/
def submitTry : FetchOutcome → Except JsError Json
  | .rejected e => .error e
  | .response status statusText body =>
    if !responseOk status then
      let errorData : Json :=
        match body with
        | .ok v => v
        | .error _ => .obj []
      match readProp (some errorData) "detail" with
      | .error e => .error e
      | .ok detail =>
        if status = 503 && truthy detail then
          match detail with
          | none => .error (typeErrorRead "undefined" "error")
          | some d =>
            if isObjectType d && strictEqStr (d.get "error") "queue_full" then
              .error (newError (.str queueFullMessage))
            else
              match d with
              | .str t => .error (newError (.str t))
              | _ => .error (newError (jsOr (d.get "message") "系統繁忙，請稍後再試"))
        else
          .error (newError (jsOr detail
            ("HTTP " ++ toString status ++ ": " ++ statusText)))
    else
      match body with
      | .ok result => .ok result
      | .error e => .error e

/-- What a call of `submitFaceSwapTask` ends with, and how many `fetch`
calls it made (itself and its recursive calls). -/
structure SubmitResult where
  outcome : Except JsError Json
  requests : Nat

/-- The retry test of the `catch` block (lines 426-427). -/
def shouldRetry (cfg : RequestConfig) (error : JsError) (retryCount : Nat) : Bool :=
  (decide (error.name = "AbortError") || includes error.message "timeout")
    && jsLt retryCount cfg.MAX_RETRIES

/-- The message of the error thrown when the retries are used up (line 439). -/
def retriesExhaustedMessage (retryCount : Nat) : String :=
  "任務提交超時，已重試 " ++ toString retryCount ++ " 次，請稍後再試"

/-- `submitFaceSwapTask(file, templateId, retryCount)`. `env k` is the outcome
of the `k`-th `fetch` from this call on. The form data built from `file`,
`templateId` and the face-index inputs is sent with the request and does not
enter the control flow. -/
def submitFaceSwapTask (cfg : RequestConfig) (env : Nat → FetchOutcome) (retryCount : Nat) :
    SubmitResult :=
  match submitTry (env 0) with
  | .ok result => ⟨.ok result, 1⟩
  | .error error =>
    if h : shouldRetry cfg error retryCount = true then
      let r := submitFaceSwapTask cfg (fun k => env (k + 1)) (retryCount + 1)
      ⟨r.outcome, r.requests + 1⟩
    else if error.name = "AbortError" then
      ⟨.error (newError (.str (retriesExhaustedMessage retryCount))), 1⟩
    else
      ⟨.error error, 1⟩
termination_by cfg.MAX_RETRIES.getD 0 - retryCount
decreasing_by
  simp only [shouldRetry, Bool.and_eq_true] at h
  have h2 := h.2
  unfold jsLt at h2
  cases hm : cfg.MAX_RETRIES with
  | none => simp [hm] at h2
  | some n =>
    simp only [hm, decide_eq_true_eq] at h2
    simp only [Option.getD_some]
    omega

/-! ## Transport: polling (`main.js` 446-493) -/

/-- The clock and the network as `pollTaskStatus` sees them: `startTime` is
the `Date.now()` read on entry, `now k` the one read by the `k`-th evaluation
of the loop condition, `polls k` the outcome of the `k`-th status request
(all counted from 0). -/
structure PollEnv where
  startTime : Nat
  now : Nat → Nat
  polls : Nat → FetchOutcome

/-- `updateTaskProgress(taskStatus, statusId)`: reads `taskStatus.progress`
and `taskStatus.message` (a `TypeError` when `taskStatus` is `undefined` or
`null`), builds the description with the template literal of line 491 (a
`TypeError` when the message or the progress does not convert to a string),
then sets the entry's description. -/
def updateTaskProgress (log : StatusLog) (taskStatus : Option Json) (statusId : Nat) :
    Except JsError StatusLog :=
  match readProp taskStatus "progress" with
  | .error e => .error e
  | .ok progress =>
    match readProp taskStatus "message" with
    | .error e => .error e
    | .ok message =>
      match jsToString message, jsToString progress with
      | some m, some p =>
        .ok (updateStatusItem log statusId { description := some (m ++ " (" ++ p ++ "%)") })
      | _, _ => .error toPrimitiveError

/-- How one pass through the loop body ends. -/
inductive PollStep where
  | returned (taskStatus : Json)
  | thrown (e : JsError)
  | again

/-- The message thrown when the loop condition fails (line 481). -/
def pollTimeoutMessage : String := "任務處理超時，請稍後查看結果或重新提交"

/-- The body of the `while` loop of `pollTaskStatus` (lines 453-478) on the
outcome of its `fetch`; the `catch` rethrows what the `try` block threw. -/
def pollIteration (o : FetchOutcome) (log : StatusLog) (statusId : Nat) :
    StatusLog × PollStep :=
  match o with
  | .rejected e => (log, .thrown e)
  | .response status _ body =>
    if !responseOk status then
      (log, .thrown (newError (.str ("查詢狀態失敗: " ++ toString status))))
    else
      match body with
      | .error e => (log, .thrown e)
      | .ok result =>
        match readProp (some result) "task_status" with
        | .error e => (log, .thrown e)
        | .ok taskStatus =>
          match updateTaskProgress log taskStatus statusId, taskStatus with
          | .error e, _ => (log, .thrown e)
          | .ok log1, none => (log1, .thrown (typeErrorRead "undefined" "status"))
          | .ok log1, some ts =>
            if strictEqStr (ts.get "status") "completed" then
              (log1, .returned ts)
            else if strictEqStr (ts.get "status") "failed" then
              (log1, .thrown (newError (jsOr (ts.get "error") "任務處理失敗")))
            else
              (log1, .again)

/-- What `pollTaskStatus` ends with, the status log it leaves, and the number
of status requests it made. -/
structure PollResult where
  outcome : Except JsError Json
  log : StatusLog
  requests : Nat

/-- The loop condition `Date.now() - startTime < maxPollTime` at its `k`-th
evaluation. -/
def withinPollTime (cfg : RequestConfig) (env : PollEnv) (k : Nat) : Bool :=
  jsLt ((env.now k : Int) - (env.startTime : Int)) cfg.MAX_POLL_TIME

/-- The `while` loop of `pollTaskStatus` after `k` passes; `none` when the
fuel does not suffice to reach the end. -/
def pollLoop (cfg : RequestConfig) (env : PollEnv) (statusId : Nat) :
    Nat → Nat → StatusLog → Option PollResult
  | 0, _, _ => none
  | fuel + 1, k, log =>
    if withinPollTime cfg env k then
      match pollIteration (env.polls k) log statusId with
      | (log1, .returned taskStatus) => some ⟨.ok taskStatus, log1, k + 1⟩
      | (log1, .thrown e) => some ⟨.error e, log1, k + 1⟩
      | (log1, .again) => pollLoop cfg env statusId fuel (k + 1) log1
    else
      some ⟨.error (newError (.str pollTimeoutMessage)), log, k⟩

/-- `pollTaskStatus(taskId, statusId)`. The task id only enters the request
URL. -/
def pollTaskStatus (cfg : RequestConfig) (env : PollEnv) (statusId : Nat) (fuel : Nat)
    (log : StatusLog) : Option PollResult :=
  pollLoop cfg env statusId fuel 0 log

/-! ## Controller (`main.js` 306-362) -/

/-- A `File`: the properties the client reads. -/
structure JsFile where
  name : String
  type : String
  size : Nat

/-- The module variables `selectedFile`, `selectedTemplate`, `customTemplate`
and `isProcessing`. -/
structure Session where
  selectedFile : Option JsFile
  selectedTemplate : Option String
  customTemplate : Option JsFile
  isProcessing : Bool

/-- The whole mutable state of the page script. -/
structure AppState where
  session : Session
  log : StatusLog

/-- The environment of one `handleProcessImage` call: `created` is the
`new Date()` of `addStatusItem`, `submits` the outcomes of the submission
requests, `poll` the clock and network of the polling phase. -/
structure Env where
  created : Nat
  submits : Nat → FetchOutcome
  poll : PollEnv

/-- The display name computed at lines 317-318. -/
def templateDisplayName (selectedTemplate : String) : String :=
  if selectedTemplate = "custom" then "自訂模板"
  else
    match TEMPLATE_CONFIG.TEMPLATES.find? (fun t => t.id = selectedTemplate) with
    | some t => if t.name ≠ "" then t.name else "未知模板"
    | none => "未知模板"

/-- `taskId.substring(0, 8)`: a `TypeError` unless `taskId` is a string.
`String.take` counts code points; it agrees with `substring` on ids without
astral characters. -/
def taskIdPrefix (taskId : Option Json) : Except JsError String :=
  match taskId with
  | none => .error (typeErrorRead "undefined" "substring")
  | some .null => .error (typeErrorRead "null" "substring")
  | some (.str t) => .ok (t.take 8)
  | some _ => .error ⟨"TypeError", "taskId.substring is not a function"⟩

/-- How a `handleProcessImage` call ends: the guard returned at once, the
`try` block ran to its end with this result, or the `catch` block handled
this error. -/
inductive Lifecycle where
  | rejected
  | completed (result : Json)
  | failed (e : JsError)

/-- Lines 337-346 once `pollTaskStatus` has returned `result`: the log left
and the error thrown, if any. The update object is built first, and its
template literal (line 342) throws when `template_name` does not convert to a
string. After the update the result is rendered (`updateStatusPanel` inside
line 338, `showResult` at line 653), which throws when `result_url` does not
convert to a string; the trim of line 346 is then not reached. -/
def finishCompleted (log : StatusLog) (statusId : Nat) (result : Json) :
    StatusLog × Option JsError :=
  match readProp (some result) "result_url" with
  | .error e => (log, some e)
  | .ok resultUrl =>
    match readProp (some result) "template_name" with
    | .error e => (log, some e)
    | .ok templateName =>
      match jsToString templateName with
      | none => (log, some toPrimitiveError)
      | some name =>
        let log2 := updateStatusItem log statusId
          { type := some "completed"
            resultUrl := some resultUrl
            templateName := some templateName
            description := some ("完成！使用模板：" ++ name) }
        match jsToString resultUrl with
        | none => (log2, some toPrimitiveError)
        | some _ => (cleanupStatusItems log2, none)

/-- The `try` block of `handleProcessImage` (lines 321-346): the log it
leaves and either the poll result or the thrown error; `none` when the poll
loop runs out of fuel. -/
def processTry (cfg : RequestConfig) (env : Env) (fuel : Nat) (log : StatusLog)
    (statusId : Nat) : Option (StatusLog × Except JsError Json) :=
  match (submitFaceSwapTask cfg env.submits 0).outcome with
  | .error e => some (log, .error e)
  | .ok taskResult =>
    match readProp (some taskResult) "task_id" with
    | .error e => some (log, .error e)
    | .ok taskId =>
      match taskIdPrefix taskId with
      | .error e => some (log, .error e)
      | .ok short =>
        let log1 := updateStatusItem log statusId
          { description := some ("任務已提交 (ID: " ++ short ++ "...)，正在處理...") }
        match pollTaskStatus cfg env.poll statusId fuel log1 with
        | none => none
        | some r =>
          match r.outcome with
          | .error e => some (r.log, .error e)
          | .ok result =>
            match finishCompleted r.log statusId result with
            | (log2, some e) => some (log2, .error e)
            | (log2, none) => some (log2, .ok result)

/-- The `finally` block (lines 358-361): `isProcessing = false`. -/
def finallyBlock (s : Session) : Session :=
  { s with isProcessing := false }

/-- `handleProcessImage()`, run from its call to its end: the final state and
how the call ended; `none` when the poll loop runs out of fuel. `running` is
the session after line 312 has set the flag; the `finally` block acts on it. -/
def handleProcessImage (cfg : RequestConfig) (env : Env) (fuel : Nat) (st : AppState) :
    Option (AppState × Lifecycle) :=
  match st.session.selectedFile, st.session.selectedTemplate with
  | some _, some selectedTemplate =>
    if selectedTemplate = "" || st.session.isProcessing then some (st, .rejected)
    else
      let running : Session := { st.session with isProcessing := true }
      let added := addStatusItem st.log "AI 換臉處理"
        ("使用模板：" ++ templateDisplayName selectedTemplate) "processing" env.created
      let statusId := added.2
      match processTry cfg env fuel added.1 statusId with
      | none => none
      | some (log1, .ok result) =>
        some (⟨finallyBlock running, log1⟩, .completed result)
      | some (log1, .error error) =>
        let log2 := updateStatusItem log1 statusId
          { type := some "error", description := some ("失敗：" ++ error.message) }
        some (⟨finallyBlock running, log2⟩, .failed error)
  | _, _ => some (st, .rejected)

/-- The entry of the log with the given id, as `find` returns it. -/
def StatusLog.entry (log : StatusLog) (statusId : Nat) : Option StatusItem :=
  log.statusItems.find? (fun item => item.id = statusId)

/-- No id in the log exceeds the counter, as in every state reached from the
empty log by `addStatusItem`, `cleanupStatusItems` and updates that leave
`id` alone. -/
def IdsBelowCounter (log : StatusLog) : Prop :=
  ∀ item ∈ log.statusItems, item.id ≤ log.statusIdCounter

/-- Does the value convert to a string, as a template literal needs?
Strings, numbers, booleans, `null`, `undefined` and objects without an own
`toString` property do. -/
def printable (v : Option Json) : Bool := (jsToString v).isSome

/-- A 2xx status response whose `task_status` is an object with
`status = "processing"` and with a `message` and a `progress` that convert
to strings. -/
def isProcessingResponse : FetchOutcome → Bool
  | .response status _ (.ok (.obj kvs)) =>
    responseOk status &&
      (match lookupLast kvs "task_status" with
       | some (.obj ts) =>
         strictEqStr (lookupLast ts "status") "processing" &&
           printable (lookupLast ts "message") && printable (lookupLast ts "progress")
       | _ => false)
  | _ => false

/-- A 2xx status response carrying the snapshot `ts` as its `task_status`. -/
def carriesSnapshot (o : FetchOutcome) (ts : List (String × Json)) : Prop :=
  ∃ status statusText kvs, o = .response status statusText (.ok (.obj kvs)) ∧
    responseOk status = true ∧ lookupLast kvs "task_status" = some (.obj ts)

/-- The description `updateTaskProgress` writes for the snapshot `ts`;
`none` when the message or the progress does not convert to a string. -/
def progressDescription (ts : List (String × Json)) : Option String :=
  match jsToString (lookupLast ts "message"), jsToString (lookupLast ts "progress") with
  | some m, some p => some (m ++ " (" ++ p ++ "%)")
  | _, _ => none

/-- The entry `item` is the last one of the log, its id is `statusId`, and no
earlier entry has that id. -/
def LastEntry (log : StatusLog) (statusId : Nat) (item : StatusItem) : Prop :=
  ∃ pre, log.statusItems = pre ++ [item] ∧ item.id = statusId ∧
    ∀ x ∈ pre, x.id ≠ statusId

/-- A status log with one entry in the `processing` state, id 1. -/
def oneEntryLog : StatusLog :=
  (addStatusItem StatusLog.empty "AI 換臉處理" "使用模板：模板 2" "processing" 1000).1

/-- A configuration with the given poll-time bound. -/
def configWithPollTime (m : Nat) : RequestConfig :=
  { TIMEOUT := some 60000, MAX_RETRIES := some 3, RETRY_DELAY := some 2000,
    POLL_INTERVAL := some 2000, MAX_POLL_TIME := some m }

/-- A 2xx status response with the given `task_status` object. -/
def snapshotResponse (ts : List (String × Json)) : FetchOutcome :=
  .response 200 "OK" (.ok (.obj [("task_status", .obj ts)]))

/-- A service that keeps answering `processing` while the clock advances by
2000 ms per loop pass. -/
def stuckService : PollEnv :=
  { startTime := 0
    now := fun k => 2000 * k
    polls := fun _ => snapshotResponse
      [("status", .str "processing"), ("progress", .num 30), ("message", .str "detecting")] }

/-- A service whose first snapshot is `failed`, with the given `error`. -/
def failingService (error : List (String × Json)) : PollEnv :=
  { startTime := 0
    now := fun k => 2000 * k
    polls := fun _ => snapshotResponse
      ([("status", .str "failed"), ("progress", .num 0), ("message", .str "failed")] ++ error) }

/-- The spec example of a completed job: template "2", snapshots
(30, "detecting"), (60, "swapping"), then the completed one. -/
def completedSnapshot : List (String × Json) :=
  [("status", .str "completed"), ("progress", .num 100), ("message", .str "completed"),
   ("result_url", .str "https://x/r.jpg"), ("template_name", .str "模板 2")]

/-- The service of the spec example: the submission returns a task id, the
status requests return the three snapshots. -/
def exampleService : Env :=
  { created := 1000
    submits := fun _ => .response 200 "OK"
      (.ok (.obj [("task_id", .str "0123456789abcdef")]))
    poll :=
      { startTime := 5000
        now := fun k => 5000 + 2000 * k
        polls := fun k =>
          match k with
          | 0 => snapshotResponse
              [("status", .str "processing"), ("progress", .num 30),
               ("message", .str "detecting")]
          | 1 => snapshotResponse
              [("status", .str "processing"), ("progress", .num 60),
               ("message", .str "swapping")]
          | _ => snapshotResponse completedSnapshot } }

/-- The page after a source image and template "2" were selected. -/
def readyState : AppState :=
  { session :=
      { selectedFile := some ⟨"me.jpg", "image/jpeg", 204800⟩
        selectedTemplate := some "2"
        customTemplate := none
        isProcessing := false }
    log := StatusLog.empty }

/-- A JSON object whose own `toString` property is data: it does not
convert to a string. -/
def opaqueValue : Json := .obj [("toString", .str "x")]

/-- A service that answers `processing` with a message that does not convert
to a string. -/
def opaqueMessageService : PollEnv :=
  { startTime := 0
    now := fun k => 2000 * k
    polls := fun _ => snapshotResponse
      [("status", .str "processing"), ("progress", .num 30), ("message", opaqueValue)] }

/-- A service whose first snapshot is `failed` with an error text and a
message that does not convert to a string. -/
def opaqueFailureService : PollEnv :=
  { startTime := 0
    now := fun k => 2000 * k
    polls := fun _ => snapshotResponse
      [("status", .str "failed"), ("progress", .num 0), ("message", opaqueValue),
       ("error", .str "No face detected")] }

/-- A completed snapshot whose `template_name` does not convert to a string. -/
def opaqueTemplateSnapshot : List (String × Json) :=
  [("status", .str "completed"), ("progress", .num 100), ("message", .str "completed"),
   ("result_url", .str "https://x/r.jpg"), ("template_name", opaqueValue)]

/-- The service of the spec example, except that the completed snapshot is
`opaqueTemplateSnapshot`. -/
def opaqueTemplateService : Env :=
  { created := 1000
    submits := exampleService.submits
    poll :=
      { startTime := 5000
        now := fun k => 5000 + 2000 * k
        polls := fun k =>
          match k with
          | 0 => exampleService.poll.polls 0
          | 1 => exampleService.poll.polls 1
          | _ => snapshotResponse opaqueTemplateSnapshot } }

/-- Did the `fetch` end in the timeout abort (`AbortError`)? -/
def isAbort : FetchOutcome → Bool
  | .rejected e => decide (e.name = "AbortError")
  | .response .. => false

/-- A configuration with the given retry maximum. -/
def configWithRetries (n : Nat) : RequestConfig :=
  { TIMEOUT := some 60000, MAX_RETRIES := some n, RETRY_DELAY := some 2000,
    POLL_INTERVAL := some 2000, MAX_POLL_TIME := some 300000 }

/-- A `fetch` aborted by the timeout timer. -/
def abortedFetch : FetchOutcome :=
  .rejected ⟨"AbortError", "The user aborted a request."⟩

/-- HTTP 504 whose detail string mentions a timeout. -/
def gatewayTimeoutResponse : FetchOutcome :=
  .response 504 "Gateway Timeout" (.ok (.obj [("detail", .str "upstream timeout")]))

/-- HTTP 500 with a plain-text body, which is not JSON. -/
def plainTextErrorResponse : FetchOutcome :=
  .response 500 "Internal Server Error"
    (.error ⟨"SyntaxError", "Unexpected token 'I', \"Internal S\"... is not valid JSON"⟩)

/-- The spec example: HTTP 503 with body `\x7b"detail":\x7b"error":"queue_full"\x7d\x7d`. -/
def queueFullResponse : FetchOutcome :=
  .response 503 "Service Unavailable"
    (.ok (.obj [("detail", .obj [("error", .str "queue_full")])]))

/-- HTTP 429 whose detail is an object with `error` and `message`. -/
def rateLimitedResponse : FetchOutcome :=
  .response 429 "Too Many Requests"
    (.ok (.obj [("detail", .obj [("error", .str "rate_limited"),
                                 ("message", .str "請求過於頻繁，請稍後再試")])]))

/-! ## Upload validation and selection (`config.js` 22-27, 91-99; `main.js` 146-290, 812-961) -/

/-- `API_CONFIG.UPLOAD.MAX_SIZE`: `10 * 1024 * 1024`. -/
def API_CONFIG.UPLOAD.MAX_SIZE : Nat := 10 * 1024 * 1024

/-- `API_CONFIG.UPLOAD.ALLOWED_TYPES`. -/
def API_CONFIG.UPLOAD.ALLOWED_TYPES : List String :=
  ["image/jpeg", "image/jpg", "image/png", "image/webp"]

/-- `Utils.isValidFileType(file)`. -/
def Utils.isValidFileType (file : JsFile) : Bool :=
  API_CONFIG.UPLOAD.ALLOWED_TYPES.contains file.type

/-- `Utils.isValidFileSize(file)`. -/
def Utils.isValidFileSize (file : JsFile) : Bool :=
  decide (file.size ≤ API_CONFIG.UPLOAD.MAX_SIZE)

/-- `validateAndPreviewFile(file)`: the session afterwards, and the `type`
argument of the `showMessage` call it ends with ("error" or "success"). The
function contains no `fetch`. -/
def validateAndPreviewFile (s : Session) (file : JsFile) : Session × String :=
  if !Utils.isValidFileType file then (s, "error")
  else if !Utils.isValidFileSize file then (s, "error")
  else ({ s with selectedFile := some file }, "success")

/-- `validateAndPreviewTemplate(file)`, like `validateAndPreviewFile`. -/
def validateAndPreviewTemplate (s : Session) (file : JsFile) : Session × String :=
  if !Utils.isValidFileType file then (s, "error")
  else if !Utils.isValidFileSize file then (s, "error")
  else ({ s with customTemplate := some file, selectedTemplate := some "custom" }, "success")

/-- `handleRemoveImage`: `selectedFile = null`. -/
def handleRemoveImage (s : Session) : Session :=
  { s with selectedFile := none }

/-- `handleTemplateSelect` and `handleTemplateClick` on a catalog radio button
with the given value: `selectedTemplate = value`, `customTemplate = null`. -/
def handleTemplateSelect (s : Session) (value : String) : Session :=
  { s with selectedTemplate := some value, customTemplate := none }

/-- `handleRemoveTemplate`: both template variables become `null`. -/
def handleRemoveTemplate (s : Session) : Session :=
  { s with customTemplate := none, selectedTemplate := none }

/-- `resetApp()` on the four module variables (lines 927-930). -/
def resetApp (_s : Session) : Session :=
  { selectedFile := none, selectedTemplate := none, customTemplate := none,
    isProcessing := false }

/-- The session on page load (lines 2-5). -/
def Session.initial : Session :=
  { selectedFile := none, selectedTemplate := none, customTemplate := none,
    isProcessing := false }

/-! ## The page as an event-driven system

`handleProcessImage` is an `async` function: it runs up to its first `await`
when the button is clicked, and each later piece runs when the awaited
request resolves. Other handlers may run in between. -/

/-- Where a suspended `handleProcessImage` call waits: inside
`submitFaceSwapTask` with the given `retryCount`, or inside the loop of
`pollTaskStatus`, which read `startTime` on entry. -/
inductive Phase where
  | submitting (retryCount : Nat)
  | polling (startTime : Nat)

/-- A `handleProcessImage` call that passed its guard and has not reached
its `finally` block: its `statusId` and where it waits. -/
structure Attempt where
  statusId : Nat
  phase : Phase

/-- The module variables together with the suspended calls. -/
structure Page where
  session : Session
  log : StatusLog
  inFlight : List Attempt

/-- The page on load. -/
def Page.initial : Page :=
  { session := Session.initial, log := StatusLog.empty, inFlight := [] }

/-- What can run next: a user gesture, `resetApp()`, or the continuation of
the `i`-th suspended call, whose pending request gave `o` at clock reading
`now`. -/
inductive Event where
  | fileSelected (file : JsFile)
  | imageRemoved
  | templateSelected (value : String)
  | templateUploaded (file : JsFile)
  | templateRemoved
  | processClicked (created : Nat)
  | resetApp
  | resumed (i : Nat) (now : Nat) (o : FetchOutcome)

/-- `handleProcessImage()` from the click to its first `await` (lines
308-326): guard, flag, new log entry, then the request is pending. -/
def Page.clickProcess (pg : Page) (created : Nat) : Page :=
  match pg.session.selectedFile, pg.session.selectedTemplate with
  | some _, some selectedTemplate =>
    if selectedTemplate = "" || pg.session.isProcessing then pg
    else
      let added := addStatusItem pg.log "AI 換臉處理"
        ("使用模板：" ++ templateDisplayName selectedTemplate) "processing" created
      { session := { pg.session with isProcessing := true }
        log := added.1
        inFlight := pg.inFlight ++ [⟨added.2, .submitting 0⟩] }
  | _, _ => pg

/-- The `finally` block: the call `i` is over. -/
def Page.settle (pg : Page) (i : Nat) (log : StatusLog) : Page :=
  { session := finallyBlock pg.session
    log := log
    inFlight := pg.inFlight.eraseIdx i }

/-- The `catch` block followed by `finally`. -/
def Page.catchError (pg : Page) (i : Nat) (a : Attempt) (log : StatusLog)
    (error : JsError) : Page :=
  pg.settle i (updateStatusItem log a.statusId
    { type := some "error", description := some ("失敗：" ++ error.message) })

/-- Lines 337-346 after `pollTaskStatus` returned `result`, then `catch` if
they threw, then `finally`. -/
def Page.complete (pg : Page) (i : Nat) (a : Attempt) (log : StatusLog)
    (result : Json) : Page :=
  match finishCompleted log a.statusId result with
  | (log2, some e) => pg.catchError i a log2 e
  | (log2, none) => pg.settle i log2

/-- The continuation of the `i`-th suspended call when its request resolves. -/
def Page.resume (cfg : RequestConfig) (pg : Page) (i now : Nat) (o : FetchOutcome) :
    Page :=
  match pg.inFlight.get? i with
  | none => pg
  | some a =>
    match a.phase with
    | .submitting retryCount =>
      match submitTry o with
      | .error error =>
        if shouldRetry cfg error retryCount then
          { pg with inFlight := pg.inFlight.set i ⟨a.statusId, .submitting (retryCount + 1)⟩ }
        else if error.name = "AbortError" then
          pg.catchError i a pg.log (newError (.str (retriesExhaustedMessage retryCount)))
        else
          pg.catchError i a pg.log error
      | .ok taskResult =>
        match readProp (some taskResult) "task_id" with
        | .error e => pg.catchError i a pg.log e
        | .ok taskId =>
          match taskIdPrefix taskId with
          | .error e => pg.catchError i a pg.log e
          | .ok short =>
            { pg with
              log := updateStatusItem pg.log a.statusId
                { description := some ("任務已提交 (ID: " ++ short ++ "...)，正在處理...") }
              inFlight := pg.inFlight.set i ⟨a.statusId, .polling now⟩ }
    | .polling startTime =>
      if jsLt ((now : Int) - (startTime : Int)) cfg.MAX_POLL_TIME then
        match pollIteration o pg.log a.statusId with
        | (log1, .returned taskStatus) => pg.complete i a log1 taskStatus
        | (log1, .thrown e) => pg.catchError i a log1 e
        | (log1, .again) => { pg with log := log1 }
      else
        pg.catchError i a pg.log (newError (.str pollTimeoutMessage))

/-- One event. -/
def Page.step (cfg : RequestConfig) (pg : Page) : Event → Page
  | .fileSelected file => { pg with session := (validateAndPreviewFile pg.session file).1 }
  | .imageRemoved => { pg with session := handleRemoveImage pg.session }
  | .templateSelected value => { pg with session := handleTemplateSelect pg.session value }
  | .templateUploaded file =>
    { pg with session := (validateAndPreviewTemplate pg.session file).1 }
  | .templateRemoved => { pg with session := handleRemoveTemplate pg.session }
  | .processClicked created => pg.clickProcess created
  | .resetApp => { pg with session := resetApp pg.session }
  | .resumed i now o => pg.resume cfg i now o

/-- A sequence of events, first to last. -/
def Page.run (cfg : RequestConfig) (pg : Page) (events : List Event) : Page :=
  events.foldl (Page.step cfg) pg

/-- Is the event a call of `resetApp()`? -/
def Event.isReset : Event → Bool
  | .resetApp => true
  | _ => false

/-- Is the event the continuation of a suspended call? -/
def Event.isResumed : Event → Bool
  | .resumed .. => true
  | _ => false

/-- A JPEG of 200 KiB. -/
def portrait : JsFile := ⟨"me.jpg", "image/jpeg", 204800⟩

/-- Select, start a job, reset while it is pending, select again, start again. -/
def resetWhilePending : List Event :=
  [.fileSelected portrait, .templateSelected "2", .processClicked 1000,
   .resetApp,
   .fileSelected portrait, .templateSelected "3", .processClicked 2000]

/-- Select, start a job, click twice more while it is pending. -/
def clickWhilePending : List Event :=
  [.fileSelected portrait, .templateSelected "2", .processClicked 1000,
   .processClicked 1100, .templateSelected "3", .processClicked 1200]

/-- The flag agrees with the suspended calls: it is set and exactly one call
is suspended, or it is clear and none is. -/
def Page.Exclusive (pg : Page) : Prop :=
  (pg.session.isProcessing = true ∧ pg.inFlight.length = 1) ∨
  (pg.session.isProcessing = false ∧ pg.inFlight = [])

/-- Does the call leave the ids of existing entries alone? True of
`addStatusItem`, of `cleanupStatusItems`, and of every `updateStatusItem` the
controller makes (its update objects carry `description`, `type`,
`resultUrl` and `templateName` only). -/
def LogOp.leavesIds : LogOp → Bool
  | .update _ u => u.id.isNone
  | _ => true

/-- Ids strictly increase along the list and none exceeds the counter. -/
def IdsIncreasing (log : StatusLog) : Prop :=
  (log.statusItems.map StatusItem.id).Pairwise (· < ·) ∧
  ∀ i ∈ log.statusItems.map StatusItem.id, i ≤ log.statusIdCounter

/-- Seven attempts as the controller logs them: add, progress update, final
update, and a trim after each completed one. -/
def sevenAttempts : List LogOp :=
  [.add "AI 換臉處理" "使用模板：模板 1" "processing" 10,
   .update 1 { type := some "completed", description := some "完成！使用模板：模板 1" },
   .cleanup,
   .add "AI 換臉處理" "使用模板：模板 2" "processing" 20,
   .update 2 { type := some "error", description := some "失敗：HTTP 500: " },
   .add "AI 換臉處理" "使用模板：模板 3" "processing" 30,
   .add "AI 換臉處理" "使用模板：模板 4" "processing" 40,
   .add "AI 換臉處理" "使用模板：模板 5" "processing" 50,
   .add "AI 換臉處理" "使用模板：模板 6" "processing" 60,
   .add "AI 換臉處理" "使用模板：模板 1" "processing" 70,
   .update 7 { type := some "completed", description := some "完成！使用模板：模板 1" },
   .cleanup]

/-- Lines 327-331 on the submission result: `taskResult.task_id` and its
`substring(0, 8)`, or the `TypeError` thrown on the way. -/
def taskIdOf (taskResult : Json) : Except JsError String :=
  match readProp (some taskResult) "task_id" with
  | .error e => .error e
  | .ok taskId => taskIdPrefix taskId

/-- The ways an attempt that passed the guard fails, with the error the
`catch` block receives and the number `k` of `processing` passes of the poll
loop before it: the submission throws (timeout after the retries, HTTP error,
malformed body); the submission result has no usable `task_id`; a pass of the
poll loop throws within the poll-time bound (HTTP error, service-reported
failure, rejected request); the poll-time bound is reached. -/
inductive FailsWith (cfg : RequestConfig) (env : Env) : Nat → JsError → Prop where
  | submission (e : JsError)
      (hsubmit : (submitFaceSwapTask cfg env.submits 0).outcome = .error e) :
      FailsWith cfg env 0 e
  | noTaskId (taskResult : Json) (e : JsError)
      (hsubmit : (submitFaceSwapTask cfg env.submits 0).outcome = .ok taskResult)
      (htask : taskIdOf taskResult = .error e) :
      FailsWith cfg env 0 e
  | polling (taskResult : Json) (short : String) (k : Nat) (e : JsError)
      (hsubmit : (submitFaceSwapTask cfg env.submits 0).outcome = .ok taskResult)
      (htask : taskIdOf taskResult = .ok short)
      (hproc : ∀ i, i < k → withinPollTime cfg env.poll i = true ∧
        isProcessingResponse (env.poll.polls i) = true)
      (hin : withinPollTime cfg env.poll k = true)
      (hthrown : ∀ lg statusId,
        (pollIteration (env.poll.polls k) lg statusId).2 = .thrown e) :
      FailsWith cfg env k e
  | pollTimeout (taskResult : Json) (short : String) (k : Nat)
      (hsubmit : (submitFaceSwapTask cfg env.submits 0).outcome = .ok taskResult)
      (htask : taskIdOf taskResult = .ok short)
      (hproc : ∀ i, i < k → withinPollTime cfg env.poll i = true ∧
        isProcessingResponse (env.poll.polls i) = true)
      (hout : withinPollTime cfg env.poll k = false) :
      FailsWith cfg env k (newError (.str pollTimeoutMessage))

/-- A service whose submission endpoint answers HTTP 500 with plain text. -/
def serverErrorService : Env :=
  { created := 7000
    submits := fun _ => plainTextErrorResponse
    poll := stuckService }

/-- The page with an image and template "2" selected and five entries in the
log, left by five earlier attempts. -/
def fiveEntryState : AppState :=
  { session := readyState.session
    log := runOps StatusLog.empty
      [.add "AI 換臉處理" "使用模板：模板 2" "processing" 10,
       .update 1 { type := some "error", description := some "失敗：HTTP 500: Internal Server Error" },
       .add "AI 換臉處理" "使用模板：模板 2" "processing" 20,
       .update 2 { type := some "error", description := some "失敗：HTTP 500: Internal Server Error" },
       .add "AI 換臉處理" "使用模板：模板 2" "processing" 30,
       .update 3 { type := some "error", description := some "失敗：HTTP 500: Internal Server Error" },
       .add "AI 換臉處理" "使用模板：模板 2" "processing" 40,
       .update 4 { type := some "error", description := some "失敗：HTTP 500: Internal Server Error" },
       .add "AI 換臉處理" "使用模板：模板 2" "processing" 50,
       .update 5 { type := some "error", description := some "失敗：HTTP 500: Internal Server Error" }] }

/-! ## Face-index fields (`main.js` 377-383) -/

/-- White space that `parseInt` skips: the code points of `WhiteSpace` and
`LineTerminator`. -/
def isJsWhiteSpace (c : Char) : Bool :=
  let n := c.toNat
  n = 9 || n = 10 || n = 11 || n = 12 || n = 13 || n = 32 || n = 160 || n = 5760 ||
    (decide (8192 ≤ n) && decide (n ≤ 8202)) || n = 8232 || n = 8233 || n = 8239 ||
    n = 8287 || n = 12288 || n = 65279

/-- The value of a digit in the given radix, if it is one. -/
def digitValue (radix : Nat) (c : Char) : Option Nat :=
  let n := c.toNat
  let v : Option Nat :=
    if 48 ≤ n ∧ n ≤ 57 then some (n - 48)
    else if 97 ≤ n ∧ n ≤ 122 then some (n - 97 + 10)
    else if 65 ≤ n ∧ n ≤ 90 then some (n - 65 + 10)
    else none
  match v with
  | some d => if d < radix then some d else none
  | none => none

/-- The longest prefix of digits, as their values. -/
def takeDigits (radix : Nat) : List Char → List Nat
  | [] => []
  | c :: cs =>
    match digitValue radix c with
    | some d => d :: takeDigits radix cs
    | none => []

/-- `parseInt(s)` with no radix argument; `none` is `NaN`. The integer is
exact: it is the JavaScript number when at most 15 digits are taken; the
rounding of longer digit strings to doubles is not modelled. -/
def parseInt (s : String) : Option Int :=
  let trimmed := s.data.dropWhile isJsWhiteSpace
  let signed : Bool × List Char :=
    match trimmed with
    | '-' :: rest => (true, rest)
    | '+' :: rest => (false, rest)
    | _ => (false, trimmed)
  let based : Nat × List Char :=
    match signed.2 with
    | '0' :: 'x' :: rest => (16, rest)
    | '0' :: 'X' :: rest => (16, rest)
    | _ => (10, signed.2)
  match takeDigits based.1 based.2 with
  | [] => none
  | ds =>
    let n : Int := ((ds.foldl (fun acc d => acc * based.1 + d) 0 : Nat) : Int)
    some (if signed.1 then -n else n)

/-- The string appended as `source_face_index` (and, from the other input,
as `target_face_index`): `inputValue` is `document.getElementById(..)?.value`,
`none` when the element is absent. It is the field the code sends for input
values of at most 15 characters (see `parseInt`). -/
def faceIndexField (inputValue : Option String) : String :=
  let faceInput : String :=
    match inputValue with
    | some v => if v ≠ "" then v else "1"
    | none => "1"
  match parseInt faceInput with
  | none => "NaN"
  | some n => toString (max 0 (n - 1))

/-! ## Endpoints (`config.js` 3-12, 87-89) -/

/-- The keys of `API_CONFIG.ENDPOINTS` that exist or that `main.js` reads; a
key the object does not define is `none`. -/
structure EndpointsConfig where
  TEMPLATES : Option String
  FACE_SWAP : Option String
  RESULTS : Option String
  HEALTH : Option String
  FACE_SWAP_STATUS : Option String

/-- The shipped `API_CONFIG.ENDPOINTS`. -/
def API_CONFIG.ENDPOINTS : EndpointsConfig :=
  { TEMPLATES := some "/templates", FACE_SWAP := some "/face-swap",
    RESULTS := some "/results", HEALTH := some "/health", FACE_SWAP_STATUS := none }

/-- `API_CONFIG.BASE_URL`. -/
def API_CONFIG.BASE_URL : String := "/api"

/-- `Utils.getApiUrl(endpoint)`. -/
def Utils.getApiUrl (endpoint : String) : String := API_CONFIG.BASE_URL ++ endpoint

/-- The URL `pollTaskStatus` requests (line 454); an undefined endpoint
prints as "undefined" in the template literal. -/
def statusUrl (endpoints : EndpointsConfig) (taskId : String) : String :=
  Utils.getApiUrl (endpoints.FACE_SWAP_STATUS.getD "undefined" ++ "/" ++ taskId)

/-! ## Error messages (`main.js` 963-974) -/

/-- A value that a `throw` statement can throw: `undefined`, an `Error`
object, or a plain value (`null`, boolean, number, string, array, object). -/
inductive Thrown where
  | undefined
  | error (e : JsError)
  | value (v : Json)

/-- The fallback text of `formatErrorMessage`. -/
def unknownErrorMessage : String := "發生未知錯誤，請重試"

/-- `formatErrorMessage(error)`: the returned value, or the `TypeError` of
reading `.message` on `null` or `undefined`. -/
def formatErrorMessage : Thrown → Except JsError Json
  | .value (.str s) => .ok (.str s)
  | .undefined => .error (typeErrorRead "undefined" "message")
  | .value .null => .error (typeErrorRead "null" "message")
  | .value v => .ok (jsOr (v.get "message") unknownErrorMessage)
  | .error e => .ok (.str (if e.message ≠ "" then e.message else unknownErrorMessage))

/-- A service whose submission endpoint answers HTTP 400 with the body
`\x7b"detail": []\x7d`. -/
def emptyDetailService : Env :=
  { created := 7000
    submits := fun _ => .response 400 "Bad Request" (.ok (.obj [("detail", .arr [])]))
    poll := stuckService }

/-! ## Status log: lemmas -/

theorem length_assignFirst (statusId : Nat) (u : Updates) (items : List StatusItem) :
    (assignFirst statusId u items).length = items.length := by
  induction items with
  | nil => rfl
  | cons item rest ih =>
    unfold assignFirst
    split
    · simp
    · simp [ih]

theorem map_id_assignFirst (statusId : Nat) (u : Updates) (hu : u.id = none)
    (items : List StatusItem) :
    (assignFirst statusId u items).map StatusItem.id = items.map StatusItem.id := by
  induction items with
  | nil => rfl
  | cons item rest ih =>
    unfold assignFirst
    split
    · simp [assign, hu]
    · simp [ih]

theorem updateStatusItem_length (log : StatusLog) (statusId : Nat) (u : Updates) :
    (updateStatusItem log statusId u).statusItems.length = log.statusItems.length := by
  unfold updateStatusItem
  split
  · simp [length_assignFirst]
  · rfl

theorem updateStatusItem_counter (log : StatusLog) (statusId : Nat) (u : Updates) :
    (updateStatusItem log statusId u).statusIdCounter = log.statusIdCounter := by
  unfold updateStatusItem
  split <;> rfl

theorem updateStatusItem_map_id (log : StatusLog) (statusId : Nat) (u : Updates)
    (hu : u.id = none) :
    (updateStatusItem log statusId u).statusItems.map StatusItem.id
      = log.statusItems.map StatusItem.id := by
  unfold updateStatusItem
  split
  · simp [map_id_assignFirst _ _ hu]
  · rfl

theorem cleanupStatusItems_length_le (log : StatusLog) :
    (cleanupStatusItems log).statusItems.length ≤ 5 := by
  unfold cleanupStatusItems
  split
  · simp only [List.length_drop]; omega
  · omega

theorem cleanupStatusItems_items (log : StatusLog) :
    (cleanupStatusItems log).statusItems
      = log.statusItems.drop (log.statusItems.length - 5) := by
  unfold cleanupStatusItems
  split
  · rfl
  · next h =>
    have : log.statusItems.length - 5 = 0 := by omega
    simp [this]

theorem runOps_cons (log : StatusLog) (op : LogOp) (ops : List LogOp) :
    runOps log (op :: ops) = runOps (op.run log) ops := rfl

/-- Without `cleanupStatusItems`, the log grows by one per `addStatusItem`. -/
theorem runOps_length (ops : List LogOp) :
    ∀ log : StatusLog, (∀ op ∈ ops, op.isCleanup = false) →
      (runOps log ops).statusItems.length
        = log.statusItems.length + ops.countP LogOp.isAdd := by
  induction ops with
  | nil => intro log _; simp [runOps]
  | cons op ops ih =>
    intro log h
    rw [runOps_cons, ih _ (fun o ho => h o (List.mem_cons_of_mem _ ho))]
    have hop := h op (List.mem_cons_self _ _)
    cases op with
    | add t d ty now =>
      simp [LogOp.run, addStatusItem, LogOp.isAdd]
      omega
    | update sid u =>
      simp [LogOp.run, updateStatusItem_length, LogOp.isAdd]
    | cleanup => simp [LogOp.isCleanup] at hop

theorem IdsInOrder_run (log : StatusLog) (op : LogOp) (hop : op.isPlain = true)
    (h : IdsInOrder log) : IdsInOrder (op.run log) := by
  unfold IdsInOrder at *
  cases op with
  | add t d ty now =>
    simp [LogOp.run, addStatusItem, h, List.range'_concat]
    omega
  | update sid u =>
    have hu : u.id = none := by simpa [LogOp.isPlain] using hop
    simp [LogOp.run, updateStatusItem_map_id _ _ _ hu, updateStatusItem_counter, h]
  | cleanup => simp [LogOp.isPlain] at hop

theorem IdsInOrder_runOps (ops : List LogOp) :
    ∀ log : StatusLog, (∀ op ∈ ops, op.isPlain = true) → IdsInOrder log →
      IdsInOrder (runOps log ops) := by
  induction ops with
  | nil => intro log _ h; exact h
  | cons op ops ih =>
    intro log hp h
    rw [runOps_cons]
    exact ih _ (fun o ho => hp o (List.mem_cons_of_mem _ ho))
      (IdsInOrder_run log op (hp op (List.mem_cons_self _ _)) h)

/-! ## Status log: retention and updates -/

/-- C1 (as stated, refuted): six `addStatusItem` calls on the empty log leave
six entries, the first-created one (id 1) still among them; `addStatusItem`
does not trim. -/
theorem six_adds_keep_six_entries :
    (runOps StatusLog.empty sixAdds).statusItems.length = 6 ∧
    (runOps StatusLog.empty sixAdds).statusItems.map StatusItem.id = [1, 2, 3, 4, 5, 6] ∧
    ¬ (runOps StatusLog.empty sixAdds).statusItems.length ≤ 5 := by
  decide

/-- C1 (amended): from the empty log, any sequence of `addStatusItem` and
`updateStatusItem` calls with exactly six adds leaves six entries; a following
`cleanupStatusItems` leaves exactly five, namely the entries after the first
one, in order and unchanged. When no update reassigns an id the ids before the
trim are 1..6 and after it 2..6, so the entry created first is absent. -/
theorem six_adds_then_cleanup (ops : List LogOp)
    (hops : ∀ op ∈ ops, op.isCleanup = false)
    (hsix : ops.countP LogOp.isAdd = 6) :
    (runOps StatusLog.empty ops).statusItems.length = 6 ∧
    (cleanupStatusItems (runOps StatusLog.empty ops)).statusItems
      = (runOps StatusLog.empty ops).statusItems.tail ∧
    (cleanupStatusItems (runOps StatusLog.empty ops)).statusItems.length = 5 ∧
    ((∀ op ∈ ops, op.isPlain = true) →
      (runOps StatusLog.empty ops).statusItems.map StatusItem.id = [1, 2, 3, 4, 5, 6] ∧
      (cleanupStatusItems (runOps StatusLog.empty ops)).statusItems.map StatusItem.id
        = [2, 3, 4, 5, 6] ∧
      ∀ item ∈ (cleanupStatusItems (runOps StatusLog.empty ops)).statusItems,
        item.id ≠ 1) := by
  have hlen : (runOps StatusLog.empty ops).statusItems.length = 6 := by
    rw [runOps_length ops _ hops, hsix]; rfl
  have htail : (cleanupStatusItems (runOps StatusLog.empty ops)).statusItems
      = (runOps StatusLog.empty ops).statusItems.tail := by
    rw [cleanupStatusItems_items, hlen]
    simp
  refine ⟨hlen, htail, ?_, ?_⟩
  · rw [htail, List.length_tail, hlen]
  · intro hplain
    have hinv : IdsInOrder (runOps StatusLog.empty ops) :=
      IdsInOrder_runOps ops _ hplain (by simp [IdsInOrder, StatusLog.empty])
    have hc : (runOps StatusLog.empty ops).statusIdCounter = 6 := by
      have := congrArg List.length hinv
      simp only [List.length_map, List.length_range', hlen] at this
      exact this.symm
    have hids : (runOps StatusLog.empty ops).statusItems.map StatusItem.id
        = [1, 2, 3, 4, 5, 6] := by
      rw [hinv, hc]; rfl
    have hids2 : (cleanupStatusItems (runOps StatusLog.empty ops)).statusItems.map
        StatusItem.id = [2, 3, 4, 5, 6] := by
      rw [htail, List.map_tail, hids]; rfl
    refine ⟨hids, hids2, ?_⟩
    intro item hitem h1
    have hmem : item.id ∈ (cleanupStatusItems (runOps StatusLog.empty ops)).statusItems.map
        StatusItem.id := List.mem_map_of_mem _ hitem
    rw [hids2, h1] at hmem
    simp at hmem

/-- Witness of `six_adds_then_cleanup`: six adds with updates in between. -/
theorem six_adds_then_cleanup_witness :
    (cleanupStatusItems (runOps StatusLog.empty sixAddsWithUpdates)).statusItems.length = 5 ∧
    (cleanupStatusItems (runOps StatusLog.empty sixAddsWithUpdates)).statusItems.map
      StatusItem.id = [2, 3, 4, 5, 6] :=
  have h := six_adds_then_cleanup sixAddsWithUpdates (by decide) (by decide)
  ⟨h.2.2.1, (h.2.2.2 (by decide)).2.1⟩

/-- C2: `cleanupStatusItems` keeps the last `min n 5` entries of the log, in
order and unchanged: the result is a suffix of the original list of length
`min n 5`; for `n > 5` it is the list without its first `n - 5` entries, for
`n ≤ 5` the log is unchanged. The id counter is never touched. -/
theorem cleanupStatusItems_spec (log : StatusLog) :
    (cleanupStatusItems log).statusItems <:+ log.statusItems ∧
    (cleanupStatusItems log).statusItems.length = min log.statusItems.length 5 ∧
    (cleanupStatusItems log).statusItems
      = log.statusItems.drop (log.statusItems.length - 5) ∧
    (cleanupStatusItems log).statusIdCounter = log.statusIdCounter ∧
    (log.statusItems.length ≤ 5 → cleanupStatusItems log = log) := by
  refine ⟨?_, ?_, cleanupStatusItems_items log, ?_, ?_⟩
  · rw [cleanupStatusItems_items]; exact List.drop_suffix _ _
  · rw [cleanupStatusItems_items, List.length_drop]; omega
  · unfold cleanupStatusItems; split <;> rfl
  · intro h
    unfold cleanupStatusItems
    rw [if_neg (by omega)]

/-- Witness of `cleanupStatusItems_spec`: a log of five entries is unchanged. -/
theorem cleanupStatusItems_spec_witness :
    (cleanupStatusItems (runOps StatusLog.empty sixAdds.tail)).statusItems.length = 5 ∧
    cleanupStatusItems (runOps StatusLog.empty sixAdds.tail)
      = runOps StatusLog.empty sixAdds.tail :=
  have h := cleanupStatusItems_spec (runOps StatusLog.empty sixAdds.tail)
  ⟨h.2.1.trans (by decide), h.2.2.2.2 (by decide)⟩

/-- C3: `updateStatusItem` with an id that matches no entry returns the log
unchanged (entries, order, fields and counter), whatever the updates. The
function is total: there is no raising path. -/
theorem updateStatusItem_unknown_id (log : StatusLog) (statusId : Nat) (u : Updates)
    (h : ∀ item ∈ log.statusItems, item.id ≠ statusId) :
    updateStatusItem log statusId u = log := by
  unfold updateStatusItem
  have hnone : log.statusItems.find? (fun item => item.id = statusId) = none := by
    rw [List.find?_eq_none]
    intro item hitem
    simpa using h item hitem
  rw [hnone]

/-- Witness of `updateStatusItem_unknown_id`: id 1 after it was evicted. -/
theorem updateStatusItem_unknown_id_witness :
    (∀ item ∈ (cleanupStatusItems (runOps StatusLog.empty sixAdds)).statusItems,
      item.id ≠ 1) ∧
    updateStatusItem (cleanupStatusItems (runOps StatusLog.empty sixAdds)) 1
        { type := some "error", description := some "失敗：" }
      = cleanupStatusItems (runOps StatusLog.empty sixAdds) :=
  ⟨by decide, updateStatusItem_unknown_id _ 1 _ (by decide)⟩

/-! ## Submission: retry policy and error messages -/

theorem submitFaceSwapTask_eq (cfg : RequestConfig) (env : Nat → FetchOutcome)
    (retryCount : Nat) :
    submitFaceSwapTask cfg env retryCount =
      match submitTry (env 0) with
      | .ok result => ⟨.ok result, 1⟩
      | .error error =>
        if shouldRetry cfg error retryCount = true then
          ⟨(submitFaceSwapTask cfg (fun k => env (k + 1)) (retryCount + 1)).outcome,
           (submitFaceSwapTask cfg (fun k => env (k + 1)) (retryCount + 1)).requests + 1⟩
        else if error.name = "AbortError" then
          ⟨.error (newError (.str (retriesExhaustedMessage retryCount))), 1⟩
        else
          ⟨.error error, 1⟩ := by
  rw [submitFaceSwapTask]
  split <;> simp

theorem submitTry_of_isAbort (o : FetchOutcome) (h : isAbort o = true) :
    ∃ e, submitTry o = .error e ∧ e.name = "AbortError" := by
  cases o with
  | rejected e => exact ⟨e, rfl, by simpa [isAbort] using h⟩
  | response st tx b => simp [isAbort] at h

/-- With every attempt aborted, a call at `retryCount ≤ n` makes the
remaining `n - retryCount` retries and reports `n`. -/
theorem submit_all_aborted_from (cfg : RequestConfig) (n : Nat)
    (hn : cfg.MAX_RETRIES = some n) :
    ∀ (d retryCount : Nat) (env : Nat → FetchOutcome), retryCount + d = n →
      (∀ k, isAbort (env k) = true) →
      submitFaceSwapTask cfg env retryCount
        = ⟨.error (newError (.str (retriesExhaustedMessage n))), d + 1⟩ := by
  intro d
  induction d with
  | zero =>
    intro retryCount env hr habort
    obtain ⟨e, he, hname⟩ := submitTry_of_isAbort _ (habort 0)
    have hrn : retryCount = n := by omega
    subst hrn
    have hno : shouldRetry cfg e retryCount = false := by
      simp [shouldRetry, jsLt, hn]
    rw [submitFaceSwapTask_eq, he]
    simp [hno, hname]
  | succ d ih =>
    intro retryCount env hr habort
    obtain ⟨e, he, hname⟩ := submitTry_of_isAbort _ (habort 0)
    have hyes : shouldRetry cfg e retryCount = true := by
      simp [shouldRetry, jsLt, hn, hname]; omega
    rw [submitFaceSwapTask_eq, he]
    simp only [hyes, if_true]
    rw [ih (retryCount + 1) (fun k => env (k + 1)) (by omega) (fun k => habort (k + 1))]

/-- No call makes more requests than the retries left plus one. -/
theorem submit_requests_le (cfg : RequestConfig) :
    ∀ (d retryCount : Nat) (env : Nat → FetchOutcome),
      cfg.MAX_RETRIES.getD 0 - retryCount = d →
      (submitFaceSwapTask cfg env retryCount).requests ≤ d + 1 := by
  intro d
  induction d with
  | zero =>
    intro retryCount env hd
    rw [submitFaceSwapTask_eq]
    split
    · simp
    · next error _ =>
      have hno : shouldRetry cfg error retryCount = false := by
        cases hm : cfg.MAX_RETRIES with
        | none => simp [shouldRetry, jsLt, hm]
        | some m =>
          simp only [hm, Option.getD_some] at hd
          simp [shouldRetry, jsLt, hm]; intro _; omega
      simp only [hno, Bool.false_eq_true, if_false]
      split <;> simp
  | succ d ih =>
    intro retryCount env hd
    rw [submitFaceSwapTask_eq]
    split
    · simp
    · split
      · have := ih (retryCount + 1) (fun k => env (k + 1)) (by omega)
        simp only; omega
      · split <;> simp

/-- C4: with `MAX_RETRIES = n` and every attempt aborted by the timeout,
`submitFaceSwapTask` from `retryCount = 0` makes `n + 1` requests (`n`
retries) and throws the error whose message reports `n` retries; and for any
sequence of outcomes it makes at most `n + 1` requests. -/
theorem submit_retry_bound (cfg : RequestConfig) (n : Nat) (env : Nat → FetchOutcome)
    (hn : cfg.MAX_RETRIES = some n) (habort : ∀ k, isAbort (env k) = true) :
    submitFaceSwapTask cfg env 0
      = ⟨.error ⟨"Error", "任務提交超時，已重試 " ++ toString n ++ " 次，請稍後再試"⟩, n + 1⟩ ∧
    ∀ other : Nat → FetchOutcome, (submitFaceSwapTask cfg other 0).requests ≤ n + 1 := by
  refine ⟨submit_all_aborted_from cfg n hn n 0 env (by omega) habort, ?_⟩
  intro other
  exact submit_requests_le cfg n 0 other (by simp [hn])

/-- Witness of `submit_retry_bound`: three retries, every attempt aborted. -/
theorem submit_retry_bound_witness :
    submitFaceSwapTask (configWithRetries 3) (fun _ => abortedFetch) 0
      = ⟨.error ⟨"Error", "任務提交超時，已重試 " ++ toString 3 ++ " 次，請稍後再試"⟩, 3 + 1⟩ :=
  (submit_retry_bound (configWithRetries 3) 3 (fun _ => abortedFetch) rfl
    (fun _ => (by decide : isAbort abortedFetch = true))).1

theorem submit_not_retried (cfg : RequestConfig) (env : Nat → FetchOutcome)
    (retryCount : Nat) (e : JsError) (he : submitTry (env 0) = .error e)
    (hname : e.name ≠ "AbortError") (hno : shouldRetry cfg e retryCount = false) :
    submitFaceSwapTask cfg env retryCount = ⟨.error e, 1⟩ := by
  rw [submitFaceSwapTask_eq, he]
  simp [hno, hname]

theorem submit_requests_pos (cfg : RequestConfig) (env : Nat → FetchOutcome)
    (retryCount : Nat) : 1 ≤ (submitFaceSwapTask cfg env retryCount).requests := by
  rw [submitFaceSwapTask_eq]
  split
  · simp
  · split
    · simp
    · split <;> simp

theorem newError_name_ne_abort (v : Json) : (newError v).name ≠ "AbortError" := by
  unfold newError
  cases v.toStr with
  | none => exact (by decide : toPrimitiveError.name ≠ "AbortError")
  | some message => exact (by decide : ("Error" : String) ≠ "AbortError")

theorem newError_str (t : String) : newError (.str t) = ⟨"Error", t⟩ := rfl

/-- A non-2xx response makes the `try` block throw an `Error` or a
`TypeError`, never an `AbortError`. -/
theorem submitTry_http_error_name (status : Nat) (statusText : String)
    (body : Except JsError Json) (h : responseOk status = false) :
    ∃ e, submitTry (.response status statusText body) = .error e ∧
      e.name ≠ "AbortError" := by
  unfold submitTry
  simp only [h, Bool.not_false, if_true]
  generalize (match body with | .ok v => v | .error _ => Json.obj []) = errorData
  cases errorData <;> simp only [readProp] <;> repeat' split
  all_goals first
    | exact ⟨_, rfl, newError_name_ne_abort _⟩
    | exact ⟨_, rfl, by simp [typeErrorRead]⟩

/-- C5 (as stated, refuted): with `MAX_RETRIES = 1`, a first response
HTTP 504 whose detail is "upstream timeout" is not a request timeout, yet a
second request is made. -/
theorem submit_retries_error_mentioning_timeout :
    isAbort gatewayTimeoutResponse = false ∧ responseOk 504 = false ∧
    (submitFaceSwapTask (configWithRetries 1) (fun _ => gatewayTimeoutResponse) 0).requests
      = 2 := by
  have e : submitTry gatewayTimeoutResponse = .error ⟨"Error", "upstream timeout"⟩ := rfl
  have r0 : shouldRetry (configWithRetries 1) ⟨"Error", "upstream timeout"⟩ 0 = true := by
    decide
  have r1 : shouldRetry (configWithRetries 1) ⟨"Error", "upstream timeout"⟩ 1 = false := by
    decide
  refine ⟨rfl, rfl, ?_⟩
  rw [submitFaceSwapTask_eq, submitFaceSwapTask_eq]
  simp only [e, r0, r1]
  simp

/-- C5 (amended): a first attempt that fails with a non-2xx response (any
body) or with a malformed body throws an error; when that error's message
does not contain "timeout" no second request is made and the very error
propagates, for every `MAX_RETRIES` and `retryCount`; when it does contain
"timeout" and `retryCount < MAX_RETRIES`, the request is repeated. -/
theorem submit_failure_not_retried (cfg : RequestConfig) (env : Nat → FetchOutcome)
    (retryCount status : Nat) (statusText : String) (body : Except JsError Json)
    (h0 : env 0 = .response status statusText body)
    (hfail : responseOk status = false ∨ ∃ e, body = .error e ∧ e.name ≠ "AbortError") :
    (∃ e, submitTry (env 0) = .error e) ∧
    ∀ e, submitTry (env 0) = .error e →
      (includes e.message "timeout" = false →
        submitFaceSwapTask cfg env retryCount = ⟨.error e, 1⟩) ∧
      (includes e.message "timeout" = true → jsLt retryCount cfg.MAX_RETRIES = true →
        2 ≤ (submitFaceSwapTask cfg env retryCount).requests) := by
  have hex : ∃ e, submitTry (env 0) = .error e ∧ e.name ≠ "AbortError" := by
    rw [h0]
    by_cases hok : responseOk status = false
    · exact submitTry_http_error_name status statusText body hok
    · rcases hfail with hf | ⟨e, hb, hname⟩
      · exact absurd hf hok
      · refine ⟨e, ?_, hname⟩
        have hok2 : responseOk status = true := by simpa using hok
        simp [submitTry, hok2, hb]
  obtain ⟨e0, he0, hname0⟩ := hex
  refine ⟨⟨e0, he0⟩, ?_⟩
  intro e he
  have hee : e = e0 := by
    rw [he0] at he
    exact (Except.error.inj he).symm
  subst hee
  constructor
  · intro hinc
    exact submit_not_retried cfg env retryCount e he hname0
      (by simp [shouldRetry, hinc, hname0])
  · intro hinc hlt
    have hyes : shouldRetry cfg e retryCount = true := by simp [shouldRetry, hinc, hlt]
    rw [submitFaceSwapTask_eq, he]
    simp only [hyes, if_true]
    have := submit_requests_pos cfg (fun k => env (k + 1)) (retryCount + 1)
    omega

/-- Witness of `submit_failure_not_retried`: HTTP 500 with a plain-text
body, three retries configured. -/
theorem submit_failure_not_retried_witness :
    submitFaceSwapTask (configWithRetries 3) (fun _ => plainTextErrorResponse) 0
      = ⟨.error ⟨"Error", "HTTP 500: Internal Server Error"⟩, 1⟩ :=
  ((submit_failure_not_retried (configWithRetries 3) (fun _ => plainTextErrorResponse) 0
      500 "Internal Server Error"
      (.error ⟨"SyntaxError", "Unexpected token 'I', \"Internal S\"... is not valid JSON"⟩)
      rfl (Or.inl rfl)).2 ⟨"Error", "HTTP 500: Internal Server Error"⟩ rfl).1 (by decide)

/-- C6: a 503 response whose JSON body has a `detail` object with
`error = "queue_full"` makes `submitFaceSwapTask` throw exactly
"系統繁忙，佇列已滿，請稍後再試" after this one request, for every
`retryCount` and every `MAX_RETRIES`. -/
theorem submit_queue_full (cfg : RequestConfig) (env : Nat → FetchOutcome)
    (retryCount : Nat) (statusText : String) (body : Json) (kvs : List (String × Json))
    (h0 : env 0 = .response 503 statusText (.ok body))
    (hdetail : body.get "detail" = some (.obj kvs))
    (herr : lookupLast kvs "error" = some (.str "queue_full")) :
    submitFaceSwapTask cfg env retryCount
      = ⟨.error ⟨"Error", "系統繁忙，佇列已滿，請稍後再試"⟩, 1⟩ := by
  have htry : submitTry (env 0) = .error ⟨"Error", "系統繁忙，佇列已滿，請稍後再試"⟩ := by
    rw [h0]
    cases body with
    | obj kvs0 =>
      simp only [Json.get] at hdetail
      simp [submitTry, responseOk, readProp, Json.get, hdetail, truthy, isObjectType,
        strictEqStr, herr, newError, queueFullMessage, Json.toStr]
    | _ => simp [Json.get] at hdetail
  have hword : (decide (("Error" : String) = "AbortError")
      || includes "系統繁忙，佇列已滿，請稍後再試" "timeout") = false := by decide
  exact submit_not_retried cfg env retryCount _ htry (by decide)
    (by simp only [shouldRetry, hword, Bool.false_and])

/-- Witness of `submit_queue_full`: the spec example, with retries left. -/
theorem submit_queue_full_witness :
    submitFaceSwapTask (configWithRetries 3) (fun _ => queueFullResponse) 0
      = ⟨.error ⟨"Error", "系統繁忙，佇列已滿，請稍後再試"⟩, 1⟩ :=
  submit_queue_full (configWithRetries 3) (fun _ => queueFullResponse) 0
    "Service Unavailable" (.obj [("detail", .obj [("error", .str "queue_full")])])
    [("error", .str "queue_full")] rfl rfl rfl

/-- C7 (code at the failing input): for HTTP 429 with
`detail = \x7berror: "rate_limited", message: "請求過於頻繁，請稍後再試"\x7d` the
thrown message is "[object Object]", not the server's message. -/
theorem submit_object_detail_message (cfg : RequestConfig) (retryCount : Nat) :
    submitFaceSwapTask cfg (fun _ => rateLimitedResponse) retryCount
      = ⟨.error ⟨"Error", "[object Object]"⟩, 1⟩ := by
  have htry : submitTry rateLimitedResponse = .error ⟨"Error", "[object Object]"⟩ := rfl
  have hword : (decide (("Error" : String) = "AbortError")
      || includes "[object Object]" "timeout") = false := by decide
  exact submit_not_retried cfg _ retryCount _ htry (by decide)
    (by simp only [shouldRetry, hword, Bool.false_and])

/-- The part of C7 that holds, string detail: a non-2xx response whose
`detail` is a non-empty string throws that string. -/
theorem submitTry_string_detail (status : Nat) (statusText t : String)
    (kvs : List (String × Json)) (h : responseOk status = false)
    (hdetail : lookupLast kvs "detail" = some (.str t)) (ht : t ≠ "") :
    submitTry (.response status statusText (.ok (.obj kvs))) = .error ⟨"Error", t⟩ := by
  by_cases h503 : status = 503
  · subst h503
    simp [submitTry, h, readProp, Json.get, hdetail, truthy, ht, isObjectType, strictEqStr,
      newError, Json.toStr]
  · simp [submitTry, h, readProp, Json.get, hdetail, truthy, ht, newError, Json.toStr, jsOr,
      h503]

/-- The part of C7 that holds, no detail: a non-2xx response whose body is
not JSON, or is an object without `detail`, throws "HTTP status: statusText". -/
theorem submitTry_generic_message (status : Nat) (statusText : String)
    (body : Except JsError Json) (h : responseOk status = false)
    (hbody : (∃ e, body = .error e) ∨
      ∃ kvs, body = .ok (.obj kvs) ∧ lookupLast kvs "detail" = none) :
    submitTry (.response status statusText body)
      = .error ⟨"Error", "HTTP " ++ toString status ++ ": " ++ statusText⟩ := by
  rcases hbody with ⟨e, rfl⟩ | ⟨kvs, rfl, hd⟩
  · simp [submitTry, h, readProp, Json.get, lookupLast, truthy, newError, Json.toStr, jsOr]
  · simp [submitTry, h, readProp, Json.get, hd, truthy, newError, Json.toStr, jsOr]

/-! ## Polling: lemmas -/

theorem progressDescription_of_printable (ts : List (String × Json))
    (hm : printable (lookupLast ts "message") = true)
    (hp : printable (lookupLast ts "progress") = true) :
    ∃ d, progressDescription ts = some d := by
  unfold printable at hm hp
  obtain ⟨m, hm1⟩ := Option.isSome_iff_exists.1 hm
  obtain ⟨q, hp1⟩ := Option.isSome_iff_exists.1 hp
  exact ⟨m ++ " (" ++ q ++ "%)", by simp [progressDescription, hm1, hp1]⟩

/-- The loop body on a 2xx response that carries the snapshot `ts`, when its
message and progress convert to strings. -/
theorem pollIteration_snapshot (o : FetchOutcome) (ts : List (String × Json))
    (log : StatusLog) (statusId : Nat) (d : String) (h : carriesSnapshot o ts)
    (hd : progressDescription ts = some d) :
    pollIteration o log statusId =
      if strictEqStr (lookupLast ts "status") "completed" then
        (updateStatusItem log statusId { description := some d }, .returned (.obj ts))
      else if strictEqStr (lookupLast ts "status") "failed" then
        (updateStatusItem log statusId { description := some d },
          .thrown (newError (jsOr (lookupLast ts "error") "任務處理失敗")))
      else
        (updateStatusItem log statusId { description := some d }, .again) := by
  obtain ⟨status, statusText, kvs, rfl, hok, hts⟩ := h
  unfold progressDescription at hd
  split at hd
  · next m q hm hq =>
    cases hd
    simp [pollIteration, hok, readProp, Json.get, hts, updateTaskProgress, hm, hq]
  · cases hd

/-- The loop body on a 2xx response whose snapshot has a message or a
progress that does not convert to a string: line 491 throws, whatever the
status, and the log is untouched. -/
theorem pollIteration_unprintable (o : FetchOutcome) (ts : List (String × Json))
    (log : StatusLog) (statusId : Nat) (h : carriesSnapshot o ts)
    (hd : progressDescription ts = none) :
    pollIteration o log statusId = (log, .thrown toPrimitiveError) := by
  obtain ⟨status, statusText, kvs, rfl, hok, hts⟩ := h
  unfold progressDescription at hd
  split at hd
  · cases hd
  · next hnot =>
    cases hm : jsToString (lookupLast ts "message") with
    | none => simp [pollIteration, hok, readProp, Json.get, hts, updateTaskProgress, hm]
    | some m =>
      cases hq : jsToString (lookupLast ts "progress") with
      | none => simp [pollIteration, hok, readProp, Json.get, hts, updateTaskProgress, hm, hq]
      | some q => exact absurd hq (hnot m q hm)

theorem carriesSnapshot_of_processing (o : FetchOutcome)
    (h : isProcessingResponse o = true) :
    ∃ ts d, carriesSnapshot o ts ∧ lookupLast ts "status" = some (.str "processing") ∧
      progressDescription ts = some d := by
  unfold isProcessingResponse at h
  split at h
  · next status statusText kvs =>
    simp only [Bool.and_eq_true] at h
    obtain ⟨hok, hm⟩ := h
    split at hm
    · next ts hts =>
      simp only [Bool.and_eq_true] at hm
      obtain ⟨⟨hstatus, hmsg⟩, hprog⟩ := hm
      obtain ⟨d, hd⟩ := progressDescription_of_printable ts hmsg hprog
      refine ⟨ts, d, ⟨status, statusText, kvs, rfl, hok, hts⟩, ?_, hd⟩
      unfold strictEqStr at hstatus
      split at hstatus
      · next t ht => simp at hstatus; rw [ht, hstatus]
      · simp at hstatus
    · simp at hm
  · simp at h

/-- The loop body on a `processing` response: only the description of the
entry is rewritten, and the loop goes on. -/
theorem pollIteration_processing (o : FetchOutcome) (log : StatusLog) (statusId : Nat)
    (h : isProcessingResponse o = true) :
    ∃ d, pollIteration o log statusId
      = (updateStatusItem log statusId { description := some d }, .again) := by
  obtain ⟨ts, d, hc, hs, hd⟩ := carriesSnapshot_of_processing o h
  refine ⟨d, ?_⟩
  rw [pollIteration_snapshot o ts log statusId d hc hd]
  simp [hs, strictEqStr]

theorem find?_append_last (pre : List StatusItem) (item : StatusItem) (statusId : Nat)
    (hid : item.id = statusId) (hpre : ∀ x ∈ pre, x.id ≠ statusId) :
    (pre ++ [item]).find? (fun x => x.id = statusId) = some item := by
  induction pre with
  | nil => simp [hid]
  | cons y rest ih =>
    have hy : y.id ≠ statusId := hpre y (List.mem_cons_self _ _)
    simp only [List.cons_append, List.find?_cons, hy, decide_False]
    exact ih (fun x hx => hpre x (List.mem_cons_of_mem _ hx))

theorem assignFirst_append_last (pre : List StatusItem) (item : StatusItem)
    (statusId : Nat) (u : Updates) (hid : item.id = statusId)
    (hpre : ∀ x ∈ pre, x.id ≠ statusId) :
    assignFirst statusId u (pre ++ [item]) = pre ++ [assign item u] := by
  induction pre with
  | nil => simp [assignFirst, hid]
  | cons y rest ih =>
    have hy : y.id ≠ statusId := hpre y (List.mem_cons_self _ _)
    have ih1 := ih (fun x hx => hpre x (List.mem_cons_of_mem _ hx))
    rw [List.cons_append, assignFirst, if_neg hy, ih1]
    rfl

theorem LastEntry.entry {log : StatusLog} {statusId : Nat} {item : StatusItem}
    (h : LastEntry log statusId item) : log.entry statusId = some item := by
  obtain ⟨pre, hitems, hid, hpre⟩ := h
  unfold StatusLog.entry
  rw [hitems]
  exact find?_append_last pre item statusId hid hpre

theorem LastEntry.update {log : StatusLog} {statusId : Nat} {item : StatusItem}
    (h : LastEntry log statusId item) (u : Updates) (hu : u.id = none) :
    LastEntry (updateStatusItem log statusId u) statusId (assign item u) := by
  obtain ⟨pre, hitems, hid, hpre⟩ := h
  refine ⟨pre, ?_, by simp [assign, hu, hid], hpre⟩
  unfold updateStatusItem
  rw [hitems, find?_append_last pre item statusId hid hpre]
  exact assignFirst_append_last pre item statusId u hid hpre

theorem LastEntry.cleanup {log : StatusLog} {statusId : Nat} {item : StatusItem}
    (h : LastEntry log statusId item) :
    LastEntry (cleanupStatusItems log) statusId item := by
  obtain ⟨pre, hitems, hid, hpre⟩ := h
  refine ⟨pre.drop (pre.length + 1 - 5), ?_, hid,
    fun x hx => hpre x (List.mem_of_mem_drop hx)⟩
  rw [cleanupStatusItems_items, hitems, List.length_append, List.length_singleton,
    List.drop_append_of_le_length (by omega)]

/-- Passes of the loop that see `processing` within the time bound only
rewrite the description of the entry. -/
theorem pollLoop_processing_rounds (cfg : RequestConfig) (env : PollEnv) (statusId : Nat) :
    ∀ (n j fuel : Nat) (log : StatusLog),
      (∀ i, j ≤ i → i < j + n →
        withinPollTime cfg env i = true ∧ isProcessingResponse (env.polls i) = true) →
      ∃ log1,
        pollLoop cfg env statusId (fuel + n) j log
          = pollLoop cfg env statusId fuel (j + n) log1 ∧
        (∀ item, LastEntry log statusId item → ∃ item1, LastEntry log1 statusId item1) := by
  intro n
  induction n with
  | zero => intro j fuel log _; exact ⟨log, rfl, fun item h => ⟨item, h⟩⟩
  | succ n ih =>
    intro j fuel log h
    obtain ⟨hw, hp⟩ := h j (Nat.le_refl _) (by omega)
    obtain ⟨d, hd⟩ := pollIteration_processing (env.polls j) log statusId hp
    obtain ⟨log1, hloop, hlast⟩ := ih (j + 1) fuel
      (updateStatusItem log statusId { description := some d })
      (fun i hi1 hi2 => h i (by omega) (by omega))
    refine ⟨log1, ?_, ?_⟩
    · have e1 : fuel + (n + 1) = (fuel + n) + 1 := by omega
      have e2 : j + (n + 1) = j + 1 + n := by omega
      rw [e1, e2, ← hloop]
      simp [pollLoop, hw, hd]
    · intro item hitem
      exact hlast _ (hitem.update _ rfl)

theorem timeout_ne_http_error (t : String) :
    "查詢狀態失敗: " ++ t ≠ "任務處理超時，請稍後查看結果或重新提交" := by
  intro h
  have h1 := congrArg (fun x => x.data.head?) h
  simp at h1

/-- Any fuel above the number of passes gives the same run as `k + 1`. -/
theorem pollLoop_fuel (cfg : RequestConfig) (env : PollEnv) (statusId k fuel : Nat)
    (log : StatusLog) (hfuel : k < fuel)
    (hproc : ∀ i < k,
      withinPollTime cfg env i = true ∧ isProcessingResponse (env.polls i) = true) :
    ∃ log1, pollTaskStatus cfg env statusId fuel log
        = pollLoop cfg env statusId (fuel - k) k log1 ∧
      (∀ item, LastEntry log statusId item → ∃ item1, LastEntry log1 statusId item1) := by
  obtain ⟨log1, h1, h2⟩ := pollLoop_processing_rounds cfg env statusId k 0 (fuel - k) log
    (fun i _ hi => hproc i (by omega))
  refine ⟨log1, ?_, h2⟩
  have e : fuel - k + k = fuel := by omega
  rw [e, Nat.zero_add] at h1
  exact h1

theorem withinPollTime_iff (cfg : RequestConfig) (env : PollEnv) (M i : Nat)
    (hM : cfg.MAX_POLL_TIME = some M) :
    withinPollTime cfg env i = true ↔ (env.now i : Int) - (env.startTime : Int) < (M : Int) := by
  simp [withinPollTime, jsLt, hM]

/-- After `k` `processing` passes, a `completed` snapshot within the time
bound, with a message and a progress that convert to strings, is returned as
it is. -/
theorem poll_completed (cfg : RequestConfig) (env : PollEnv) (statusId k fuel : Nat)
    (log : StatusLog) (s : List (String × Json)) (hfuel : k < fuel)
    (hin : ∀ i, i ≤ k → withinPollTime cfg env i = true)
    (hproc : ∀ i, i < k → isProcessingResponse (env.polls i) = true)
    (hk : carriesSnapshot (env.polls k) s)
    (hs : lookupLast s "status" = some (.str "completed"))
    (hmsg : printable (lookupLast s "message") = true)
    (hprog : printable (lookupLast s "progress") = true) :
    ∃ log1, pollTaskStatus cfg env statusId fuel log = some ⟨.ok (.obj s), log1, k + 1⟩ ∧
      (∀ item, LastEntry log statusId item → ∃ item1, LastEntry log1 statusId item1) := by
  obtain ⟨log1, hrun, hlast⟩ := pollLoop_fuel cfg env statusId k fuel log hfuel
    (fun i hi => ⟨hin i (by omega), hproc i hi⟩)
  obtain ⟨m, hm⟩ : ∃ m, fuel - k = m + 1 := ⟨fuel - k - 1, by omega⟩
  obtain ⟨d, hd⟩ := progressDescription_of_printable s hmsg hprog
  refine ⟨updateStatusItem log1 statusId { description := some d }, ?_, ?_⟩
  · rw [hrun, hm]
    simp [pollLoop, hin k (Nat.le_refl _), pollIteration_snapshot _ s log1 statusId d hk hd,
      hs, strictEqStr]
  · intro item hitem
    obtain ⟨item1, h1⟩ := hlast item hitem
    exact ⟨_, h1.update _ rfl⟩

/-! ## Polling: terminal outcomes -/

/-- C9 (as stated, refuted): a service that answers every status request
with HTTP 200 and status `processing`, but with a message that does not
convert to a string, makes `pollTaskStatus` throw a `TypeError` on the first
pass instead of the timeout error. And a service-reported failure whose
`error` text is the timeout sentence produces, after one request and well
within the poll-time bound, the same message as the client-side timeout. -/
theorem poll_timeout_refuted :
    Option.map PollResult.outcome
      (pollTaskStatus (configWithPollTime 4000) opaqueMessageService 1 3 oneEntryLog)
      = some (.error ⟨"TypeError", "Cannot convert object to primitive value"⟩) ∧
    Option.map PollResult.requests
      (pollTaskStatus (configWithPollTime 4000) opaqueMessageService 1 3 oneEntryLog)
      = some 1 ∧
    withinPollTime (configWithPollTime 300000)
      (failingService [("error", .str "任務處理超時，請稍後查看結果或重新提交")]) 0 = true ∧
    Option.map PollResult.requests
      (pollTaskStatus (configWithPollTime 300000)
        (failingService [("error", .str "任務處理超時，請稍後查看結果或重新提交")]) 1 1
        oneEntryLog) = some 1 ∧
    Option.map PollResult.outcome
      (pollTaskStatus (configWithPollTime 300000)
        (failingService [("error", .str "任務處理超時，請稍後查看結果或重新提交")]) 1 1
        oneEntryLog)
      = some (.error ⟨"Error", "任務處理超時，請稍後查看結果或重新提交"⟩) ∧
    Option.map PollResult.outcome
      (pollTaskStatus (configWithPollTime 4000) stuckService 1 3 oneEntryLog)
      = some (.error ⟨"Error", "任務處理超時，請稍後查看結果或重新提交"⟩) :=
  ⟨rfl, rfl, rfl, rfl, rfl, rfl⟩

/-- C9 (amended): with `MAX_POLL_TIME = M` and only `processing` snapshots
whose message and progress convert to strings, `pollTaskStatus` ends at the
first loop check `k` at which the elapsed time has reached `M`, after `k`
requests, throwing "任務處理超時，請稍後查看結果或重新提交". That message
differs from every polling HTTP error message and from the fallback of a
service-reported failure; a non-empty `error` string of a failed snapshot
(with printable message and progress) is thrown verbatim. -/
theorem poll_timeout (cfg : RequestConfig) (env : PollEnv) (statusId : Nat)
    (log : StatusLog) (M k fuel : Nat)
    (hM : cfg.MAX_POLL_TIME = some M)
    (hin : ∀ i, i < k → (env.now i : Int) - (env.startTime : Int) < (M : Int))
    (hout : (M : Int) ≤ (env.now k : Int) - (env.startTime : Int))
    (hproc : ∀ i, i < k → isProcessingResponse (env.polls i) = true)
    (hfuel : k < fuel) :
    (∃ log1, pollTaskStatus cfg env statusId fuel log
      = some ⟨.error ⟨"Error", "任務處理超時，請稍後查看結果或重新提交"⟩, log1, k⟩) ∧
    (∀ (status : Nat) (statusText : String) (body : Except JsError Json) (lg : StatusLog),
      responseOk status = false →
      ∃ e, pollIteration (.response status statusText body) lg statusId = (lg, .thrown e) ∧
        e.message ≠ "任務處理超時，請稍後查看結果或重新提交") ∧
    (∀ (o : FetchOutcome) (ts : List (String × Json)) (lg : StatusLog),
      carriesSnapshot o ts → lookupLast ts "status" = some (.str "failed") →
      printable (lookupLast ts "message") = true →
      printable (lookupLast ts "progress") = true →
      ∃ lg1 e, pollIteration o lg statusId = (lg1, .thrown e) ∧
        (truthy (lookupLast ts "error") = false →
          e.message = "任務處理失敗" ∧
          e.message ≠ "任務處理超時，請稍後查看結果或重新提交") ∧
        (∀ t, lookupLast ts "error" = some (.str t) → t ≠ "" → e.message = t)) := by
  refine ⟨?_, ?_, ?_⟩
  · obtain ⟨log1, hrun, _⟩ := pollLoop_fuel cfg env statusId k fuel log hfuel
      (fun i hi => ⟨(withinPollTime_iff cfg env M i hM).2 (hin i hi), hproc i hi⟩)
    obtain ⟨m, hm⟩ : ∃ m, fuel - k = m + 1 := ⟨fuel - k - 1, by omega⟩
    have hend : withinPollTime cfg env k = false := by
      rw [Bool.eq_false_iff]
      intro h
      have := (withinPollTime_iff cfg env M k hM).1 h
      omega
    refine ⟨log1, ?_⟩
    rw [hrun, hm]
    simp [pollLoop, hend, newError, Json.toStr, pollTimeoutMessage]
  · intro status statusText body lg hbad
    refine ⟨newError (.str ("查詢狀態失敗: " ++ toString status)), ?_, ?_⟩
    · simp [pollIteration, hbad]
    · exact timeout_ne_http_error _
  · intro o ts lg hc hfailed hmsg hprog
    obtain ⟨d, hd⟩ := progressDescription_of_printable ts hmsg hprog
    refine ⟨updateStatusItem lg statusId { description := some d },
      newError (jsOr (lookupLast ts "error") "任務處理失敗"), ?_, ?_, ?_⟩
    · rw [pollIteration_snapshot o ts lg statusId d hc hd]
      simp [hfailed, strictEqStr]
    · intro hfalsy
      have : (newError (jsOr (lookupLast ts "error") "任務處理失敗")).message
          = "任務處理失敗" := by
        simp [jsOr, hfalsy, newError, Json.toStr]
      rw [this]
      exact ⟨rfl, by decide⟩
    · intro t ht hne
      simp [jsOr, ht, truthy, hne, newError, Json.toStr]

/-- Witness of `poll_timeout`: a bound of 4000 ms, a clock advancing 2000 ms
per pass, a service that always answers `processing`. -/
theorem poll_timeout_witness :
    ∃ log1, pollTaskStatus (configWithPollTime 4000) stuckService 1 3 oneEntryLog
      = some ⟨.error ⟨"Error", "任務處理超時，請稍後查看結果或重新提交"⟩, log1, 2⟩ :=
  (poll_timeout (configWithPollTime 4000) stuckService 1 oneEntryLog 4000 2 3 rfl
    (fun i hi => by simp only [stuckService]; omega)
    (by simp [stuckService])
    (fun _ _ => rfl) (by decide)).1

/-- C10 (as stated, refuted): a `failed` snapshot with the error text
"No face detected", whose message does not convert to a string, makes
`pollTaskStatus` throw the `TypeError` of line 491, not an error with the
snapshot's error text; the status is tested only after that line. -/
theorem poll_failure_refuted :
    withinPollTime (configWithPollTime 300000) opaqueFailureService 0 = true ∧
    Option.map PollResult.outcome
      (pollTaskStatus (configWithPollTime 300000) opaqueFailureService 1 1 oneEntryLog)
      = some (.error ⟨"TypeError", "Cannot convert object to primitive value"⟩) ∧
    Option.map PollResult.requests
      (pollTaskStatus (configWithPollTime 300000) opaqueFailureService 1 1 oneEntryLog)
      = some 1 :=
  ⟨rfl, rfl, rfl⟩

/-- C10 (amended): when, after `k` `processing` passes, the next snapshot
within the poll-time bound has status `failed` and a message and a progress
that convert to strings, `pollTaskStatus` ends after that `k + 1`-th request
by throwing the `Error` whose message is the snapshot's `error` string when
it is present and non-empty, and "任務處理失敗" when the snapshot has no
`error`. -/
theorem poll_service_failure (cfg : RequestConfig) (env : PollEnv) (statusId k fuel : Nat)
    (log : StatusLog) (ts : List (String × Json)) (hfuel : k < fuel)
    (hin : ∀ i, i ≤ k → withinPollTime cfg env i = true)
    (hproc : ∀ i, i < k → isProcessingResponse (env.polls i) = true)
    (hk : carriesSnapshot (env.polls k) ts)
    (hfailed : lookupLast ts "status" = some (.str "failed"))
    (hmsg : printable (lookupLast ts "message") = true)
    (hprog : printable (lookupLast ts "progress") = true) :
    ∃ log1 e, pollTaskStatus cfg env statusId fuel log = some ⟨.error e, log1, k + 1⟩ ∧
      (∀ t, lookupLast ts "error" = some (.str t) → t ≠ "" → e = ⟨"Error", t⟩) ∧
      (lookupLast ts "error" = none → e = ⟨"Error", "任務處理失敗"⟩) := by
  obtain ⟨log1, hrun, _⟩ := pollLoop_fuel cfg env statusId k fuel log hfuel
    (fun i hi => ⟨hin i (by omega), hproc i hi⟩)
  obtain ⟨m, hm⟩ : ∃ m, fuel - k = m + 1 := ⟨fuel - k - 1, by omega⟩
  obtain ⟨d, hd⟩ := progressDescription_of_printable ts hmsg hprog
  refine ⟨updateStatusItem log1 statusId { description := some d },
    newError (jsOr (lookupLast ts "error") "任務處理失敗"), ?_, ?_, ?_⟩
  · rw [hrun, hm]
    simp [pollLoop, hin k (Nat.le_refl _), pollIteration_snapshot _ ts log1 statusId d hk hd,
      hfailed, strictEqStr]
  · intro t ht hne
    simp [jsOr, ht, truthy, hne, newError, Json.toStr]
  · intro hnone
    simp [jsOr, hnone, truthy, newError, Json.toStr]

/-- Witness of `poll_service_failure`: the first snapshot is `failed` with
an error text. -/
theorem poll_service_failure_witness :
    ∃ log1 e,
      pollTaskStatus (configWithPollTime 300000)
        (failingService [("error", .str "No face detected")]) 1 1 oneEntryLog
        = some ⟨.error e, log1, 1⟩ ∧
      e = ⟨"Error", "No face detected"⟩ :=
  match poll_service_failure (configWithPollTime 300000)
      (failingService [("error", .str "No face detected")]) 1 0 1 oneEntryLog
      [("status", .str "failed"), ("progress", .num 0), ("message", .str "failed"),
       ("error", .str "No face detected")]
      (by decide) (fun i hi => by
        have h0 : i = 0 := by omega
        subst h0; rfl)
      (fun i hi => absurd hi (Nat.not_lt_zero i))
      ⟨200, "OK", _, rfl, rfl, rfl⟩ rfl rfl rfl with
  | ⟨log1, e, hrun, hmsg, _⟩ => ⟨log1, e, hrun, hmsg "No face detected" rfl (by decide)⟩

/-! ## Controller: entries of the attempt -/

theorem LastEntry_addStatusItem (log : StatusLog) (title description type : String)
    (now : Nat) (h : IdsBelowCounter log) :
    ∃ item, LastEntry (addStatusItem log title description type now).1
      (log.statusIdCounter + 1) item := by
  refine ⟨_, log.statusItems, rfl, rfl, ?_⟩
  intro x hx
  have := h x hx
  omega

/-! ## The in-flight guard -/

theorem validateAndPreviewFile_isProcessing (s : Session) (file : JsFile) :
    (validateAndPreviewFile s file).1.isProcessing = s.isProcessing := by
  unfold validateAndPreviewFile
  split
  · rfl
  · split <;> rfl

theorem validateAndPreviewTemplate_isProcessing (s : Session) (file : JsFile) :
    (validateAndPreviewTemplate s file).1.isProcessing = s.isProcessing := by
  unfold validateAndPreviewTemplate
  split
  · rfl
  · split <;> rfl

/-- A continuation either leaves the session and the number of suspended
calls as they are, or ends its call through the `finally` block. -/
theorem Page.resume_shape (cfg : RequestConfig) (pg : Page) (i now : Nat)
    (o : FetchOutcome) :
    ((pg.resume cfg i now o).session = pg.session ∧
      (pg.resume cfg i now o).inFlight.length = pg.inFlight.length) ∨
    (i < pg.inFlight.length ∧ ∃ log, pg.resume cfg i now o = pg.settle i log) := by
  unfold Page.resume
  split
  · exact Or.inl ⟨rfl, rfl⟩
  · next a ha =>
    have hi : i < pg.inFlight.length := by
      obtain ⟨h, _⟩ := List.get?_eq_some.1 ha
      exact h
    unfold Page.complete
    repeat' split
    all_goals first
      | exact Or.inl ⟨rfl, by simp⟩
      | exact Or.inr ⟨hi, _, rfl⟩

theorem Page.settle_exclusive (pg : Page) (i : Nat) (log : StatusLog)
    (hi : i < pg.inFlight.length) (h : pg.inFlight.length = 1) :
    (pg.settle i log).Exclusive := by
  refine Or.inr ⟨rfl, ?_⟩
  have hlen : (pg.inFlight.eraseIdx i).length = 0 := by
    rw [List.length_eraseIdx_of_lt hi, h]
  exact List.length_eq_zero.1 hlen

theorem Page.step_exclusive (cfg : RequestConfig) (pg : Page) (e : Event)
    (he : e.isReset = false) (h : pg.Exclusive) : (pg.step cfg e).Exclusive := by
  cases e with
  | fileSelected file =>
    simpa [Page.step, Page.Exclusive, validateAndPreviewFile_isProcessing] using h
  | imageRemoved => exact h
  | templateSelected value => exact h
  | templateUploaded file =>
    simpa [Page.step, Page.Exclusive, validateAndPreviewTemplate_isProcessing] using h
  | templateRemoved => exact h
  | processClicked created =>
    simp only [Page.step, Page.clickProcess]
    split
    · split
      · exact h
      · next hguard =>
        rcases h with ⟨hp, _⟩ | ⟨_, hnil⟩
        · simp [hp] at hguard
        · exact Or.inl ⟨rfl, by simp [hnil]⟩
    · exact h
  | resetApp => simp [Event.isReset] at he
  | resumed i now o =>
    simp only [Page.step]
    rcases Page.resume_shape cfg pg i now o with ⟨hs, hl⟩ | ⟨hi, log, hlog⟩
    · unfold Page.Exclusive at *
      rw [hs]
      rcases h with ⟨hp, h1⟩ | ⟨hp, hnil⟩
      · exact Or.inl ⟨hp, by omega⟩
      · refine Or.inr ⟨hp, ?_⟩
        rw [hnil] at hl
        exact List.length_eq_zero.1 hl
    · rw [hlog]
      rcases h with ⟨_, h1⟩ | ⟨_, hnil⟩
      · exact Page.settle_exclusive pg i log hi h1
      · rw [hnil] at hi
        exact absurd hi (Nat.not_lt_zero _)

theorem Page.run_exclusive (cfg : RequestConfig) (events : List Event) :
    ∀ pg : Page, (∀ e ∈ events, e.isReset = false) → pg.Exclusive →
      (pg.run cfg events).Exclusive := by
  induction events with
  | nil => intro pg _ h; exact h
  | cons e rest ih =>
    intro pg hno h
    exact ih (pg.step cfg e) (fun x hx => hno x (List.mem_cons_of_mem _ hx))
      (Page.step_exclusive cfg pg e (hno e (List.mem_cons_self _ _)) h)

/-- C11 (as stated, refuted): `resetApp()` while a job is pending clears the
flag, and a second `handleProcessImage` then passes the guard: two calls are
suspended at once, each with its own log entry. -/
theorem reset_allows_two_in_flight :
    (Page.run API_CONFIG.REQUEST Page.initial resetWhilePending).inFlight.length = 2 ∧
    (Page.run API_CONFIG.REQUEST Page.initial resetWhilePending).log.statusItems.length = 2 ∧
    (Page.run API_CONFIG.REQUEST Page.initial (resetWhilePending.take 4)).inFlight.length = 1 ∧
    (Page.run API_CONFIG.REQUEST Page.initial
      (resetWhilePending.take 4)).session.isProcessing = false := by
  decide

/-- C11 (amended): in every state reached from page load by file and template
gestures, clicks on the process button and continuations of suspended calls
(no `resetApp`), at most one call is suspended and `isProcessing` is true
exactly then. On any page, a click while `isProcessing` is true changes
nothing; a click that passes the guard sets the flag in the same run that
suspends the call; and an event that clears the flag is `resetApp` or the
continuation that ends a suspended call through `finally`. -/
theorem in_flight_exclusion (cfg : RequestConfig) (events : List Event)
    (hno : ∀ e ∈ events, e.isReset = false) :
    (Page.run cfg Page.initial events).inFlight.length ≤ 1 ∧
    ((Page.run cfg Page.initial events).session.isProcessing = true ↔
      (Page.run cfg Page.initial events).inFlight.length = 1) ∧
    (∀ (pg : Page) (created : Nat), pg.session.isProcessing = true →
      pg.step cfg (.processClicked created) = pg) ∧
    (∀ (pg : Page) (created : Nat),
      pg.step cfg (.processClicked created) = pg ∨
      ((pg.step cfg (.processClicked created)).session.isProcessing = true ∧
        (pg.step cfg (.processClicked created)).inFlight
          = pg.inFlight ++ [⟨pg.log.statusIdCounter + 1, .submitting 0⟩])) ∧
    (∀ (pg : Page) (e : Event), pg.session.isProcessing = true →
      (pg.step cfg e).session.isProcessing = false →
      e.isReset = true ∨
      (e.isResumed = true ∧ ∃ i log, i < pg.inFlight.length ∧ pg.step cfg e = pg.settle i log)) := by
  have hex := Page.run_exclusive cfg events Page.initial hno (Or.inr ⟨rfl, rfl⟩)
  refine ⟨?_, ?_, ?_, ?_, ?_⟩
  · rcases hex with ⟨_, h1⟩ | ⟨_, hnil⟩
    · omega
    · simp [hnil]
  · rcases hex with ⟨hp, h1⟩ | ⟨hp, hnil⟩
    · simp [hp, h1]
    · simp [hp, hnil]
  · intro pg created hp
    simp only [Page.step, Page.clickProcess]
    split
    · simp [hp]
    · rfl
  · intro pg created
    simp only [Page.step, Page.clickProcess]
    split
    · split
      · exact Or.inl rfl
      · exact Or.inr ⟨rfl, rfl⟩
    · exact Or.inl rfl
  · intro pg e hp hcleared
    cases e with
    | fileSelected file =>
      simp [Page.step, validateAndPreviewFile_isProcessing, hp] at hcleared
    | imageRemoved => simp [Page.step, handleRemoveImage, hp] at hcleared
    | templateSelected value => simp [Page.step, handleTemplateSelect, hp] at hcleared
    | templateUploaded file =>
      simp [Page.step, validateAndPreviewTemplate_isProcessing, hp] at hcleared
    | templateRemoved => simp [Page.step, handleRemoveTemplate, hp] at hcleared
    | processClicked created =>
      simp only [Page.step, Page.clickProcess] at hcleared
      split at hcleared
      · simp [hp] at hcleared
      · simp [hp] at hcleared
    | resetApp => exact Or.inl rfl
    | resumed i now o =>
      refine Or.inr ⟨rfl, ?_⟩
      simp only [Page.step] at hcleared ⊢
      rcases Page.resume_shape cfg pg i now o with ⟨hs, _⟩ | ⟨hi, log, hlog⟩
      · rw [hs, hp] at hcleared
        simp at hcleared
      · exact ⟨i, log, hi, hlog⟩

/-- Witness of `in_flight_exclusion`: two more clicks while the first job is
pending leave one suspended call. -/
theorem in_flight_exclusion_witness :
    (Page.run (configWithRetries 3) Page.initial clickWhilePending).inFlight.length ≤ 1 :=
  (in_flight_exclusion (configWithRetries 3) clickWhilePending (by decide)).1

/-! ## Upload validation -/

theorem accepted_iff (file : JsFile) :
    (Utils.isValidFileType file = true ∧ Utils.isValidFileSize file = true) ↔
      (file.type = "image/jpeg" ∨ file.type = "image/jpg" ∨ file.type = "image/png" ∨
        file.type = "image/webp") ∧ file.size ≤ 10485760 := by
  simp [Utils.isValidFileType, Utils.isValidFileSize, API_CONFIG.UPLOAD.ALLOWED_TYPES,
    API_CONFIG.UPLOAD.MAX_SIZE]

/-- C14: `validateAndPreviewFile` ends with the success message exactly when
the MIME type is one of image/jpeg, image/jpg, image/png, image/webp and the
size is at most 10485760 bytes. A rejected file leaves the four session
variables, the log and the suspended calls as they were (no request is
started); an accepted file becomes `selectedFile`, the rest unchanged.
`validateAndPreviewTemplate` accepts under the same condition; it then sets
`customTemplate` and `selectedTemplate = "custom"`, and otherwise changes
nothing. -/
theorem validation_spec (s : Session) (file : JsFile) :
    ((validateAndPreviewFile s file).2 = "success" ↔
      (file.type = "image/jpeg" ∨ file.type = "image/jpg" ∨ file.type = "image/png" ∨
        file.type = "image/webp") ∧ file.size ≤ 10485760) ∧
    ((validateAndPreviewFile s file).2 ≠ "success" → (validateAndPreviewFile s file).1 = s) ∧
    ((validateAndPreviewFile s file).2 = "success" →
      (validateAndPreviewFile s file).1 = { s with selectedFile := some file }) ∧
    (∀ (cfg : RequestConfig) (pg : Page),
      (pg.step cfg (.fileSelected file)).inFlight = pg.inFlight ∧
      (pg.step cfg (.fileSelected file)).log = pg.log) ∧
    ((validateAndPreviewTemplate s file).2 = "success" ↔
      (validateAndPreviewFile s file).2 = "success") ∧
    ((validateAndPreviewTemplate s file).2 ≠ "success" →
      (validateAndPreviewTemplate s file).1 = s) ∧
    ((validateAndPreviewTemplate s file).2 = "success" →
      (validateAndPreviewTemplate s file).1
        = { s with customTemplate := some file, selectedTemplate := some "custom" }) := by
  have hiff := accepted_iff file
  unfold validateAndPreviewFile validateAndPreviewTemplate
  by_cases ht : Utils.isValidFileType file = true
  · by_cases hs : Utils.isValidFileSize file = true
    · have hacc := hiff.1 ⟨ht, hs⟩
      simp [ht, hs, hacc, Page.step]
    · have hrej : ¬ ((file.type = "image/jpeg" ∨ file.type = "image/jpg" ∨
          file.type = "image/png" ∨ file.type = "image/webp") ∧ file.size ≤ 10485760) :=
        fun h => hs (hiff.2 h).2
      simp [ht, hs, hrej, Page.step]
  · have hrej : ¬ ((file.type = "image/jpeg" ∨ file.type = "image/jpg" ∨
        file.type = "image/png" ∨ file.type = "image/webp") ∧ file.size ≤ 10485760) :=
      fun h => ht (hiff.2 h).1
    simp [ht, hrej, Page.step]

/-- Witness of `validation_spec`: a JPEG of 200 KiB is accepted and selected. -/
theorem validation_spec_witness :
    (validateAndPreviewFile Session.initial portrait).1
      = { Session.initial with selectedFile := some portrait } :=
  (validation_spec Session.initial portrait).2.2.1
    ((validation_spec Session.initial portrait).1.2 ⟨Or.inl rfl, by decide⟩)

/-! ## Status log identifiers -/

theorem IdsIncreasing_run (log : StatusLog) (op : LogOp) (hop : op.leavesIds = true)
    (h : IdsIncreasing log) : IdsIncreasing (op.run log) := by
  obtain ⟨hpw, hle⟩ := h
  cases op with
  | add t d ty now =>
    refine ⟨?_, ?_⟩
    · simp only [LogOp.run, addStatusItem, List.map_append, List.map_cons, List.map_nil]
      rw [List.pairwise_append]
      refine ⟨hpw, List.pairwise_singleton _ _, ?_⟩
      intro a ha b hb
      have hb1 : b = log.statusIdCounter + 1 := by simpa using hb
      have := hle a ha
      omega
    · intro i hi
      simp only [LogOp.run, addStatusItem, List.map_append, List.map_cons, List.map_nil,
        List.mem_append, List.mem_singleton] at hi ⊢
      rcases hi with hi | hi
      · have := hle i hi
        omega
      · omega
  | update sid u =>
    have hu : u.id = none := by simpa [LogOp.leavesIds] using hop
    unfold IdsIncreasing
    simp only [LogOp.run, updateStatusItem_map_id _ _ _ hu, updateStatusItem_counter]
    exact ⟨hpw, hle⟩
  | cleanup =>
    unfold IdsIncreasing
    have hitems := cleanupStatusItems_items log
    have hc : (cleanupStatusItems log).statusIdCounter = log.statusIdCounter := by
      unfold cleanupStatusItems; split <;> rfl
    simp only [LogOp.run, hitems, hc, List.map_drop]
    refine ⟨hpw.sublist (List.drop_sublist _ _), ?_⟩
    intro i hi
    exact hle i (List.mem_of_mem_drop hi)

theorem IdsIncreasing_runOps (ops : List LogOp) :
    ∀ log : StatusLog, (∀ op ∈ ops, op.leavesIds = true) → IdsIncreasing log →
      IdsIncreasing (runOps log ops) := by
  induction ops with
  | nil => intro log _ h; exact h
  | cons op ops ih =>
    intro log hp h
    rw [runOps_cons]
    exact ih _ (fun o ho => hp o (List.mem_cons_of_mem _ ho))
      (IdsIncreasing_run log op (hp op (List.mem_cons_self _ _)) h)

theorem counter_le_run (log : StatusLog) (op : LogOp) :
    log.statusIdCounter ≤ (op.run log).statusIdCounter := by
  cases op with
  | add t d ty now => simp [LogOp.run, addStatusItem]
  | update sid u => simp [LogOp.run, updateStatusItem_counter]
  | cleanup =>
    simp only [LogOp.run]
    unfold cleanupStatusItems
    split <;> simp

theorem counter_le_runOps (ops : List LogOp) :
    ∀ log : StatusLog, log.statusIdCounter ≤ (runOps log ops).statusIdCounter := by
  induction ops with
  | nil => intro log; exact Nat.le_refl _
  | cons op ops ih =>
    intro log
    rw [runOps_cons]
    exact Nat.le_trans (counter_le_run log op) (ih _)

/-- C17: `addStatusItem` returns the counter plus one, stores it as the new
counter, and appends the new entry (given title, description and type, `null`
result reference and template name) after the existing entries, which it
leaves as they are. In every state reached from the empty log by
`addStatusItem`, `cleanupStatusItems` and updates that leave `id` alone, the
ids are strictly increasing along the list, hence pairwise distinct, and none
exceeds the counter; the counter never decreases afterwards, so the next id
issued is larger than every id issued so far, evicted or not. -/
theorem status_ids_invariant (ops : List LogOp)
    (hops : ∀ op ∈ ops, op.leavesIds = true) :
    (∀ (log : StatusLog) (title description type : String) (now : Nat),
      (addStatusItem log title description type now).2 = log.statusIdCounter + 1 ∧
      (addStatusItem log title description type now).1.statusIdCounter
        = log.statusIdCounter + 1 ∧
      (addStatusItem log title description type now).1.statusItems
        = log.statusItems ++
          [{ id := log.statusIdCounter + 1, title := title, description := description,
             type := type, timestamp := now, resultUrl := some .null,
             templateName := some .null }]) ∧
    ((runOps StatusLog.empty ops).statusItems.map StatusItem.id).Pairwise (· < ·) ∧
    ((runOps StatusLog.empty ops).statusItems.map StatusItem.id).Nodup ∧
    (∀ item ∈ (runOps StatusLog.empty ops).statusItems,
      item.id ≤ (runOps StatusLog.empty ops).statusIdCounter) ∧
    (∀ (more : List LogOp) (title description type : String) (now : Nat),
      (runOps StatusLog.empty ops).statusIdCounter
        < (addStatusItem (runOps (runOps StatusLog.empty ops) more)
            title description type now).2) := by
  have hinv : IdsIncreasing (runOps StatusLog.empty ops) :=
    IdsIncreasing_runOps ops _ hops ⟨by simp [StatusLog.empty], by simp [StatusLog.empty]⟩
  refine ⟨fun _ _ _ _ _ => ⟨rfl, rfl, rfl⟩, hinv.1, ?_, ?_, ?_⟩
  · exact hinv.1.imp (fun h => Nat.ne_of_lt h)
  · intro item hitem
    exact hinv.2 _ (List.mem_map_of_mem _ hitem)
  · intro more title description type now
    have := counter_le_runOps more (runOps StatusLog.empty ops)
    simp only [addStatusItem]
    omega

/-- Witness of `status_ids_invariant`: after seven logged attempts and two
trims the ids are 3..7 and the counter is 7. -/
theorem status_ids_invariant_witness :
    ((runOps StatusLog.empty sevenAttempts).statusItems.map StatusItem.id).Pairwise (· < ·) ∧
    (runOps StatusLog.empty sevenAttempts).statusItems.map StatusItem.id = [3, 4, 5, 6, 7] ∧
    (runOps StatusLog.empty sevenAttempts).statusIdCounter = 7 :=
  ⟨(status_ids_invariant sevenAttempts (by decide)).2.1, by decide, by decide⟩

/-! ## Controller: the failed lifecycle -/

theorem updateTaskProgress_ok (log log1 : StatusLog) (taskStatus : Option Json)
    (statusId : Nat) (h : updateTaskProgress log taskStatus statusId = .ok log1) :
    ∃ d, log1 = updateStatusItem log statusId { description := some d } := by
  unfold updateTaskProgress at h
  split at h
  · cases h
  · split at h
    · cases h
    · split at h
      · exact ⟨_, (Except.ok.inj h).symm⟩
      · cases h

/-- A pass of the poll loop leaves the log as it is or rewrites the
description of the entry. -/
theorem pollIteration_log (o : FetchOutcome) (log : StatusLog) (statusId : Nat) :
    (pollIteration o log statusId).1 = log ∨
    ∃ d, (pollIteration o log statusId).1
      = updateStatusItem log statusId { description := some d } := by
  unfold pollIteration
  split
  · exact Or.inl rfl
  · split
    · exact Or.inl rfl
    · split
      · exact Or.inl rfl
      · split
        · exact Or.inl rfl
        · split
          · exact Or.inl rfl
          · next log1 hup =>
            exact Or.inr (updateTaskProgress_ok _ _ _ _ hup)
          · next log1 ts hup =>
            obtain ⟨d, hd⟩ := updateTaskProgress_ok _ _ _ _ hup
            refine Or.inr ⟨d, ?_⟩
            split
            · exact hd
            · split <;> exact hd

theorem pollIteration_lastEntry (o : FetchOutcome) (log : StatusLog) (statusId : Nat)
    (item : StatusItem) (h : LastEntry log statusId item) :
    ∃ item1, LastEntry (pollIteration o log statusId).1 statusId item1 := by
  rcases pollIteration_log o log statusId with h1 | ⟨d, h1⟩
  · rw [h1]; exact ⟨item, h⟩
  · rw [h1]; exact ⟨_, h.update _ rfl⟩

/-- Whatever the service answers, the poll loop keeps the attempt's entry
last in the log. -/
theorem pollLoop_lastEntry (cfg : RequestConfig) (env : PollEnv) (statusId : Nat) :
    ∀ (fuel k : Nat) (log : StatusLog) (r : PollResult),
      pollLoop cfg env statusId fuel k log = some r →
      ∀ item, LastEntry log statusId item → ∃ item1, LastEntry r.log statusId item1 := by
  intro fuel
  induction fuel with
  | zero => intro k log r h; simp [pollLoop] at h
  | succ fuel ih =>
    intro k log r h item hitem
    obtain ⟨item1, h1⟩ := pollIteration_lastEntry (env.polls k) log statusId item hitem
    simp only [pollLoop] at h
    split at h
    · split at h
      · next log1 ts heq =>
        have hlog : (pollIteration (env.polls k) log statusId).1 = log1 := by rw [heq]
        cases h
        exact ⟨item1, hlog ▸ h1⟩
      · next log1 e heq =>
        have hlog : (pollIteration (env.polls k) log statusId).1 = log1 := by rw [heq]
        cases h
        exact ⟨item1, hlog ▸ h1⟩
      · next log1 heq =>
        have hlog : (pollIteration (env.polls k) log statusId).1 = log1 := by rw [heq]
        exact ih (k + 1) log1 r h item1 (hlog ▸ h1)
    · cases h
      exact ⟨item, hitem⟩

theorem LastEntry_finishCompleted (log : StatusLog) (statusId : Nat) (result : Json)
    (item : StatusItem) (h : LastEntry log statusId item) :
    ∃ item1, LastEntry (finishCompleted log statusId result).1 statusId item1 := by
  unfold finishCompleted
  split
  · exact ⟨item, h⟩
  · split
    · exact ⟨item, h⟩
    · split
      · exact ⟨item, h⟩
      · split
        · exact ⟨_, h.update _ rfl⟩
        · exact ⟨_, (h.update _ rfl).cleanup⟩

/-- When lines 337-346 throw nothing, they end with the trim. -/
theorem finishCompleted_trimmed (log log2 : StatusLog) (statusId : Nat) (result : Json)
    (h : finishCompleted log statusId result = (log2, none)) :
    log2.statusItems.length ≤ 5 := by
  unfold finishCompleted at h
  split at h
  · cases h
  · split at h
    · cases h
    · split at h
      · cases h
      · split at h
        · cases h
        · cases h
          exact cleanupStatusItems_length_le _

/-- The `try` block in terms of `taskIdOf`. -/
theorem processTry_eq (cfg : RequestConfig) (env : Env) (fuel : Nat) (log : StatusLog)
    (statusId : Nat) :
    processTry cfg env fuel log statusId =
      match (submitFaceSwapTask cfg env.submits 0).outcome with
      | .error e => some (log, .error e)
      | .ok taskResult =>
        match taskIdOf taskResult with
        | .error e => some (log, .error e)
        | .ok short =>
          match pollTaskStatus cfg env.poll statusId fuel (updateStatusItem log statusId
              { description := some ("任務已提交 (ID: " ++ short ++ "...)，正在處理...") }) with
          | none => none
          | some r =>
            match r.outcome with
            | .error e => some (r.log, .error e)
            | .ok result =>
              match finishCompleted r.log statusId result with
              | (log2, some e) => some (log2, .error e)
              | (log2, none) => some (log2, .ok result) := by
  unfold processTry taskIdOf
  split
  · rfl
  · split
    · rfl
    · split <;> rfl

/-- When the `try` block throws, the attempt's entry is still last in the log. -/
theorem processTry_error_lastEntry (cfg : RequestConfig) (env : Env) (fuel : Nat)
    (log log1 : StatusLog) (statusId : Nat) (e : JsError) (item : StatusItem)
    (h : processTry cfg env fuel log statusId = some (log1, .error e))
    (hitem : LastEntry log statusId item) :
    ∃ item1, LastEntry log1 statusId item1 := by
  rw [processTry_eq] at h
  split at h
  · cases h; exact ⟨item, hitem⟩
  · split at h
    · cases h; exact ⟨item, hitem⟩
    · next short _ =>
      split at h
      · cases h
      · next r hr =>
        have hlast := pollLoop_lastEntry cfg env.poll statusId fuel 0 _ r hr _
          (hitem.update
            { description := some ("任務已提交 (ID: " ++ short ++ "...)，正在處理...") } rfl)
        split at h
        · cases h; exact hlast
        · next result _ =>
          obtain ⟨item1, h1⟩ := hlast
          obtain ⟨item2, h2⟩ := LastEntry_finishCompleted r.log statusId result item1 h1
          split at h
          · next log2 e2 hfin =>
            cases h
            rw [hfin] at h2
            exact ⟨item2, h2⟩
          · cases h

/-- A completed `try` block ends with the trim. -/
theorem processTry_ok_trimmed (cfg : RequestConfig) (env : Env) (fuel : Nat)
    (log log1 : StatusLog) (statusId : Nat) (result : Json)
    (h : processTry cfg env fuel log statusId = some (log1, .ok result)) :
    log1.statusItems.length ≤ 5 := by
  rw [processTry_eq] at h
  split at h
  · cases h
  · split at h
    · cases h
    · split at h
      · cases h
      · split at h
        · cases h
        · split at h
          · cases h
          · next log2 hfin =>
            cases h
            exact finishCompleted_trimmed _ _ _ _ hfin

/-- `handleProcessImage` once the guard is passed. -/
theorem handleProcessImage_eq (cfg : RequestConfig) (env : Env) (fuel : Nat) (st : AppState)
    (file : JsFile) (template : String)
    (hfile : st.session.selectedFile = some file)
    (htemplate : st.session.selectedTemplate = some template)
    (hnonempty : template ≠ "")
    (hidle : st.session.isProcessing = false) :
    handleProcessImage cfg env fuel st =
      match processTry cfg env fuel
          (addStatusItem st.log "AI 換臉處理"
            ("使用模板：" ++ templateDisplayName template) "processing" env.created).1
          (st.log.statusIdCounter + 1) with
      | none => none
      | some (log1, .ok result) =>
        some (⟨finallyBlock { st.session with isProcessing := true }, log1⟩,
          .completed result)
      | some (log1, .error error) =>
        some (⟨finallyBlock { st.session with isProcessing := true },
          updateStatusItem log1 (st.log.statusIdCounter + 1)
            { type := some "error", description := some ("失敗：" ++ error.message) }⟩,
          .failed error) := by
  simp only [handleProcessImage, hfile, htemplate, hidle]
  simp [hnonempty, addStatusItem]

/-- Every run that ends in the `catch` block leaves the flag clear and the
attempt's entry finalized as an error. -/
theorem failed_run_finalized (cfg : RequestConfig) (env : Env) (fuel : Nat) (st : AppState)
    (file : JsFile) (template : String)
    (hfile : st.session.selectedFile = some file)
    (htemplate : st.session.selectedTemplate = some template)
    (hnonempty : template ≠ "")
    (hidle : st.session.isProcessing = false)
    (hids : IdsBelowCounter st.log)
    (final : AppState) (e : JsError)
    (h : handleProcessImage cfg env fuel st = some (final, .failed e)) :
    final.session.isProcessing = false ∧
    ∃ item, final.log.entry (st.log.statusIdCounter + 1) = some item ∧
      item.type = "error" ∧ item.description = "失敗：" ++ e.message := by
  rw [handleProcessImage_eq cfg env fuel st file template hfile htemplate hnonempty hidle] at h
  obtain ⟨item0, hlast0⟩ := LastEntry_addStatusItem st.log "AI 換臉處理"
    ("使用模板：" ++ templateDisplayName template) "processing" env.created hids
  split at h
  · cases h
  · cases h
  · next log1 error hp =>
    obtain ⟨item1, h1⟩ := processTry_error_lastEntry cfg env fuel _ log1 _ error item0 hp hlast0
    have h2 := h1.update
      { type := some "error", description := some ("失敗：" ++ error.message) } rfl
    cases h
    exact ⟨rfl, _, h2.entry, rfl, rfl⟩

/-- Each failure mode makes the `try` block throw its error, for every fuel
above the number of poll passes. -/
theorem processTry_of_failsWith (cfg : RequestConfig) (env : Env) (k : Nat) (e : JsError)
    (hfail : FailsWith cfg env k e) (fuel : Nat) (hfuel : k < fuel) (log : StatusLog)
    (statusId : Nat) :
    ∃ log1, processTry cfg env fuel log statusId = some (log1, .error e) := by
  rw [processTry_eq]
  cases hfail with
  | submission e hsubmit => exact ⟨log, by simp [hsubmit]⟩
  | noTaskId taskResult e hsubmit htask => exact ⟨log, by simp [hsubmit, htask]⟩
  | polling taskResult short k e hsubmit htask hproc hin hthrown =>
    obtain ⟨log1, hrun, _⟩ := pollLoop_fuel cfg env.poll statusId k fuel
      (updateStatusItem log statusId
        { description := some ("任務已提交 (ID: " ++ short ++ "...)，正在處理...") })
      hfuel hproc
    obtain ⟨m, hm⟩ : ∃ m, fuel - k = m + 1 := ⟨fuel - k - 1, by omega⟩
    have hit : pollIteration (env.poll.polls k) log1 statusId
        = ((pollIteration (env.poll.polls k) log1 statusId).1, .thrown e) :=
      Prod.ext rfl (hthrown log1 statusId)
    refine ⟨(pollIteration (env.poll.polls k) log1 statusId).1, ?_⟩
    simp only [hsubmit, htask, hrun, hm, pollLoop, hin, if_true]
    rw [hit]
  | pollTimeout taskResult short k hsubmit htask hproc hout =>
    obtain ⟨log1, hrun, _⟩ := pollLoop_fuel cfg env.poll statusId k fuel
      (updateStatusItem log statusId
        { description := some ("任務已提交 (ID: " ++ short ++ "...)，正在處理...") })
      hfuel hproc
    obtain ⟨m, hm⟩ : ∃ m, fuel - k = m + 1 := ⟨fuel - k - 1, by omega⟩
    refine ⟨log1, ?_⟩
    simp [hsubmit, htask, hrun, hm, pollLoop, hout]

/-- C12: for an attempt that passes the guard, every run of
`handleProcessImage` that ends in its `catch` block leaves `isProcessing`
false and the attempt's entry with type "error" and description "失敗：" plus
the error message; and each failure mode (submission timeout after the
retries, submission HTTP error, submission body without a task id, polling
HTTP error, service-reported failure, poll timeout) does make the run end
there, with that mode's error, for every fuel above the number of poll
passes. No error leaves the function. -/
theorem failure_frees_guard (cfg : RequestConfig) (env : Env) (st : AppState)
    (file : JsFile) (template : String)
    (hfile : st.session.selectedFile = some file)
    (htemplate : st.session.selectedTemplate = some template)
    (hnonempty : template ≠ "")
    (hidle : st.session.isProcessing = false)
    (hids : IdsBelowCounter st.log) :
    (∀ (fuel : Nat) (final : AppState) (e : JsError),
      handleProcessImage cfg env fuel st = some (final, .failed e) →
      final.session.isProcessing = false ∧
      ∃ item, final.log.entry (st.log.statusIdCounter + 1) = some item ∧
        item.type = "error" ∧ item.description = "失敗：" ++ e.message) ∧
    (∀ (k : Nat) (e : JsError), FailsWith cfg env k e → ∀ fuel, k < fuel →
      ∃ final, handleProcessImage cfg env fuel st = some (final, .failed e) ∧
        final.session.isProcessing = false ∧
        ∃ item, final.log.entry (st.log.statusIdCounter + 1) = some item ∧
          item.type = "error" ∧ item.description = "失敗：" ++ e.message) := by
  have hgen := failed_run_finalized cfg env
  refine ⟨fun fuel final e h =>
    hgen fuel st file template hfile htemplate hnonempty hidle hids final e h, ?_⟩
  intro k e hfail fuel hfuel
  obtain ⟨log1, hp⟩ := processTry_of_failsWith cfg env k e hfail fuel hfuel
    (addStatusItem st.log "AI 換臉處理"
      ("使用模板：" ++ templateDisplayName template) "processing" env.created).1
    (st.log.statusIdCounter + 1)
  have hrun : handleProcessImage cfg env fuel st
      = some (⟨finallyBlock { st.session with isProcessing := true },
          updateStatusItem log1 (st.log.statusIdCounter + 1)
            { type := some "error", description := some ("失敗：" ++ e.message) }⟩,
          .failed e) := by
    rw [handleProcessImage_eq cfg env fuel st file template hfile htemplate hnonempty hidle,
      hp]
  exact ⟨_, hrun, hgen fuel st file template hfile htemplate hnonempty hidle hids _ e hrun⟩

/-- Witness of `failure_frees_guard`: the submission is answered with
HTTP 500 and a plain-text body. -/
theorem failure_frees_guard_witness :
    ∃ final,
      handleProcessImage (configWithRetries 3) serverErrorService 1 readyState
        = some (final, .failed ⟨"Error", "HTTP 500: Internal Server Error"⟩) ∧
      final.session.isProcessing = false ∧
      ∃ item, final.log.entry 1 = some item ∧ item.type = "error" ∧
        item.description = "失敗：HTTP 500: Internal Server Error" :=
  (failure_frees_guard (configWithRetries 3) serverErrorService readyState portrait "2"
      rfl rfl (by decide) rfl (fun x hx => by cases hx)).2 0
    ⟨"Error", "HTTP 500: Internal Server Error"⟩
    (FailsWith.submission _ (by rw [submitFaceSwapTask_eq]; rfl)) 1 (by decide)

/-- A run that ends in the completed branch leaves at most five entries. -/
theorem completed_run_trimmed (cfg : RequestConfig) (env : Env) (fuel : Nat) (st : AppState)
    (file : JsFile) (template : String)
    (hfile : st.session.selectedFile = some file)
    (htemplate : st.session.selectedTemplate = some template)
    (hnonempty : template ≠ "")
    (hidle : st.session.isProcessing = false)
    (final : AppState) (result : Json)
    (h : handleProcessImage cfg env fuel st = some (final, .completed result)) :
    final.log.statusItems.length ≤ 5 := by
  rw [handleProcessImage_eq cfg env fuel st file template hfile htemplate hnonempty hidle] at h
  split at h
  · cases h
  · next log1 result1 hp =>
    cases h
    exact processTry_ok_trimmed cfg env fuel _ log1 _ _ hp
  · cases h

/-- C13 (code at the failing input): with five entries in the log, an attempt
whose submission is answered with HTTP 500 ends in the `catch` block and
leaves six entries; no trim runs on that path. -/
theorem failed_attempt_leaves_six_entries :
    fiveEntryState.log.statusItems.length = 5 ∧
    ∃ final,
      handleProcessImage API_CONFIG.REQUEST serverErrorService 1 fiveEntryState
        = some (final, .failed ⟨"Error", "HTTP 500: Internal Server Error"⟩) ∧
      final.log.statusItems.length = 6 ∧
      final.log.statusItems.map StatusItem.id = [1, 2, 3, 4, 5, 6] := by
  have hsub : (submitFaceSwapTask API_CONFIG.REQUEST serverErrorService.submits 0).outcome
      = .error ⟨"Error", "HTTP 500: Internal Server Error"⟩ := by
    rw [submitFaceSwapTask_eq]; rfl
  refine ⟨by decide, ?_⟩
  rw [handleProcessImage_eq API_CONFIG.REQUEST serverErrorService 1 fiveEntryState portrait "2"
    rfl rfl (by decide) rfl, processTry_eq]
  simp only [hsub]
  exact ⟨_, rfl, by decide, by decide⟩

/-! ## Face-index fields -/

/-- C15 (code at the failing inputs): for the input values "abc" and ".5"
the field sent is "NaN", which is not the decimal form of an integer. For an
absent or empty input it is "0", and for "1", "3", "0", "-4" it is "0", "2",
"0", "0". -/
theorem face_index_not_a_number :
    faceIndexField (some "abc") = "NaN" ∧
    faceIndexField (some ".5") = "NaN" ∧
    faceIndexField none = "0" ∧
    faceIndexField (some "") = "0" ∧
    faceIndexField (some "1") = "0" ∧
    faceIndexField (some "3") = "2" ∧
    faceIndexField (some "0") = "0" ∧
    faceIndexField (some "-4") = "0" := by
  decide

/-! ## The shipped configuration -/

/-- C16 (code on the shipped configuration): `API_CONFIG.REQUEST` defines
`TIMEOUT = 60000` and none of `MAX_RETRIES`, `RETRY_DELAY`, `POLL_INTERVAL`,
`MAX_POLL_TIME`; `API_CONFIG.ENDPOINTS` has no `FACE_SWAP_STATUS`. With it a
submission is never retried, whatever the outcomes (a timed-out one ends
after one request, reporting 0 retries), `pollTaskStatus` throws the timeout
error before its first status request, and the status URL contains
"undefined". -/
theorem shipped_config_never_retries_nor_polls :
    API_CONFIG.REQUEST.TIMEOUT = some 60000 ∧
    API_CONFIG.REQUEST.MAX_RETRIES = none ∧
    API_CONFIG.REQUEST.RETRY_DELAY = none ∧
    API_CONFIG.REQUEST.POLL_INTERVAL = none ∧
    API_CONFIG.REQUEST.MAX_POLL_TIME = none ∧
    API_CONFIG.ENDPOINTS.FACE_SWAP_STATUS = none ∧
    (∀ (env : Nat → FetchOutcome) (retryCount : Nat),
      (submitFaceSwapTask API_CONFIG.REQUEST env retryCount).requests = 1) ∧
    submitFaceSwapTask API_CONFIG.REQUEST (fun _ => abortedFetch) 0
      = ⟨.error ⟨"Error", "任務提交超時，已重試 0 次，請稍後再試"⟩, 1⟩ ∧
    (∀ (env : PollEnv) (statusId fuel : Nat) (log : StatusLog),
      pollTaskStatus API_CONFIG.REQUEST env statusId (fuel + 1) log
        = some ⟨.error ⟨"Error", "任務處理超時，請稍後查看結果或重新提交"⟩, log, 0⟩) ∧
    statusUrl API_CONFIG.ENDPOINTS "0123456789abcdef" = "/apiundefined/0123456789abcdef" := by
  refine ⟨rfl, rfl, rfl, rfl, rfl, rfl, ?_, ?_, ?_, by decide⟩
  · intro env retryCount
    have hle := submit_requests_le API_CONFIG.REQUEST 0 retryCount env
      (by simp [API_CONFIG.REQUEST])
    have hpos := submit_requests_pos API_CONFIG.REQUEST env retryCount
    omega
  · rw [submitFaceSwapTask_eq]
    rfl
  · intro env statusId fuel log
    simp [pollTaskStatus, pollLoop, withinPollTime, jsLt, API_CONFIG.REQUEST, newError,
      Json.toStr, pollTimeoutMessage]

/-! ## The message written on failure -/

/-- C18 (code at the failing inputs): when the submission is answered with
HTTP 400 and `detail = []`, the caught error has an empty message and the
entry's description is "失敗：" with nothing after it, although
`formatErrorMessage` maps that error to "發生未知錯誤，請重試"; the `catch`
block does not call it. On `null` and on `undefined`, `formatErrorMessage`
itself throws a `TypeError`. -/
theorem empty_message_written_without_fallback :
    (∃ final item,
      handleProcessImage API_CONFIG.REQUEST emptyDetailService 1 readyState
        = some (final, .failed ⟨"Error", ""⟩) ∧
      final.log.entry 1 = some item ∧ item.type = "error" ∧ item.description = "失敗：") ∧
    formatErrorMessage (.error ⟨"Error", ""⟩) = .ok (.str "發生未知錯誤，請重試") ∧
    formatErrorMessage (.value .null)
      = .error ⟨"TypeError", "Cannot read properties of null (reading 'message')"⟩ ∧
    formatErrorMessage .undefined
      = .error ⟨"TypeError", "Cannot read properties of undefined (reading 'message')"⟩ := by
  have hsub : (submitFaceSwapTask API_CONFIG.REQUEST emptyDetailService.submits 0).outcome
      = .error ⟨"Error", ""⟩ := by
    rw [submitFaceSwapTask_eq]; rfl
  refine ⟨?_, rfl, rfl, rfl⟩
  rw [handleProcessImage_eq API_CONFIG.REQUEST emptyDetailService 1 readyState portrait "2"
    rfl rfl (by decide) rfl, processTry_eq]
  simp only [hsub]
  exact ⟨_, _, rfl, rfl, rfl, rfl⟩

/-- What `formatErrorMessage` returns where it returns: a thrown string
itself, the message of an `Error` when it is not empty, the fallback when it
is empty. -/
theorem formatErrorMessage_spec (s : String) (e : JsError) :
    formatErrorMessage (.value (.str s)) = .ok (.str s) ∧
    (e.message ≠ "" → formatErrorMessage (.error e) = .ok (.str e.message)) ∧
    (e.message = "" → formatErrorMessage (.error e) = .ok (.str "發生未知錯誤，請重試")) := by
  refine ⟨rfl, ?_, ?_⟩
  · intro h; simp [formatErrorMessage, h]
  · intro h; simp [formatErrorMessage, h, unknownErrorMessage]

/-! ## Controller: the completed lifecycle -/

/-- Lines 337-346 on a result whose `template_name` and `result_url` convert
to strings: the entry is finalized and the log trimmed. -/
theorem finishCompleted_printable (log : StatusLog) (statusId : Nat)
    (s : List (String × Json))
    (hname : printable (lookupLast s "template_name") = true)
    (hurl : printable (lookupLast s "result_url") = true) :
    ∃ name, finishCompleted log statusId (.obj s)
      = (cleanupStatusItems (updateStatusItem log statusId
          { type := some "completed"
            resultUrl := some (lookupLast s "result_url")
            templateName := some (lookupLast s "template_name")
            description := some ("完成！使用模板：" ++ name) }), none) := by
  unfold printable at hname hurl
  obtain ⟨name, hn⟩ := Option.isSome_iff_exists.1 hname
  obtain ⟨url, hu⟩ := Option.isSome_iff_exists.1 hurl
  exact ⟨name, by simp [finishCompleted, readProp, Json.get, hn, hu]⟩

/-- C8 (as stated, refuted): in the spec example with the completed
snapshot's `template_name` replaced by an object that does not convert to a
string, the submission succeeds and the two `processing` snapshots and the
`completed` one arrive within the poll-time bound, yet line 342 throws while
building the update and `handleProcessImage` ends in its `catch` block: the
entry has type "error" and no result reference. -/
theorem completed_snapshot_not_finalized :
    isProcessingResponse (opaqueTemplateService.poll.polls 0) = true ∧
    isProcessingResponse (opaqueTemplateService.poll.polls 1) = true ∧
    withinPollTime (configWithPollTime 300000) opaqueTemplateService.poll 2 = true ∧
    lookupLast opaqueTemplateSnapshot "status" = some (.str "completed") ∧
    ∃ final item,
      handleProcessImage (configWithPollTime 300000) opaqueTemplateService 3 readyState
        = some (final,
            .failed ⟨"TypeError", "Cannot convert object to primitive value"⟩) ∧
      final.log.entry 1 = some item ∧
      item.type = "error" ∧
      item.resultUrl = some .null := by
  have hsub : (submitFaceSwapTask (configWithPollTime 300000)
      opaqueTemplateService.submits 0).outcome
      = .ok (.obj [("task_id", .str "0123456789abcdef")]) := by
    rw [submitFaceSwapTask_eq]; rfl
  refine ⟨rfl, rfl, rfl, rfl, ?_⟩
  rw [handleProcessImage_eq (configWithPollTime 300000) opaqueTemplateService 3 readyState
    portrait "2" rfl rfl (by decide) rfl, processTry_eq]
  simp only [hsub]
  exact ⟨_, _, rfl, rfl, rfl, rfl⟩

/-- C8 (amended): with a source image and a template selected and no job in
flight, if the submission returns a body with a string `task_id` and the
status requests give `k` `processing` snapshots and then, all within the
poll-time bound, a `completed` snapshot `s`, where the message and progress
of every snapshot and the `template_name` and `result_url` of `s` convert to
strings, then `handleProcessImage` ends in the completed branch with result
`s`, `isProcessing` is false, and the attempt's entry (the id `addStatusItem`
returned, `statusIdCounter + 1`) has type "completed",
`resultUrl = s.result_url` and `templateName = s.template_name`;
`pollTaskStatus` returns exactly `s` after `k + 1` requests. -/
theorem completed_lifecycle (cfg : RequestConfig) (env : Env) (st : AppState)
    (file : JsFile) (template taskId : String) (body s : List (String × Json))
    (k fuel : Nat)
    (hfile : st.session.selectedFile = some file)
    (htemplate : st.session.selectedTemplate = some template)
    (hnonempty : template ≠ "")
    (hidle : st.session.isProcessing = false)
    (hids : IdsBelowCounter st.log)
    (hsubmit : (submitFaceSwapTask cfg env.submits 0).outcome = .ok (.obj body))
    (htask : lookupLast body "task_id" = some (.str taskId))
    (hin : ∀ i, i ≤ k → withinPollTime cfg env.poll i = true)
    (hproc : ∀ i, i < k → isProcessingResponse (env.poll.polls i) = true)
    (hk : carriesSnapshot (env.poll.polls k) s)
    (hs : lookupLast s "status" = some (.str "completed"))
    (hmsg : printable (lookupLast s "message") = true)
    (hprog : printable (lookupLast s "progress") = true)
    (hname : printable (lookupLast s "template_name") = true)
    (hurl : printable (lookupLast s "result_url") = true)
    (hfuel : k < fuel) :
    ∃ final item,
      handleProcessImage cfg env fuel st = some (final, .completed (.obj s)) ∧
      final.session.isProcessing = false ∧
      final.log.entry (st.log.statusIdCounter + 1) = some item ∧
      item.type = "completed" ∧
      item.resultUrl = lookupLast s "result_url" ∧
      item.templateName = lookupLast s "template_name" ∧
      ∀ lg, ∃ lg1, pollTaskStatus cfg env.poll (st.log.statusIdCounter + 1) fuel lg
        = some ⟨.ok (.obj s), lg1, k + 1⟩ := by
  obtain ⟨item0, hlast0⟩ := LastEntry_addStatusItem st.log "AI 換臉處理"
    ("使用模板：" ++ templateDisplayName template) "processing" env.created hids
  have hlast1 := hlast0.update
    { description := some ("任務已提交 (ID: " ++ taskId.take 8 ++ "...)，正在處理...") } rfl
  obtain ⟨log2, hpoll, hlast2⟩ := poll_completed cfg env.poll (st.log.statusIdCounter + 1)
    k fuel _ s hfuel hin hproc hk hs hmsg hprog
  obtain ⟨item2, hitem2⟩ := hlast2 _ hlast1
  obtain ⟨name, hfin⟩ := finishCompleted_printable log2 (st.log.statusIdCounter + 1) s
    hname hurl
  have hlast3 := (hitem2.update
    { type := some "completed"
      resultUrl := some (lookupLast s "result_url")
      templateName := some (lookupLast s "template_name")
      description := some ("完成！使用模板：" ++ name) }
    rfl).cleanup
  have hid : taskIdOf (.obj body) = .ok (taskId.take 8) := by
    simp [taskIdOf, readProp, Json.get, htask, taskIdPrefix]
  refine ⟨⟨finallyBlock { st.session with isProcessing := true }, _⟩, _, ?_, rfl,
    hlast3.entry, rfl, rfl, rfl, ?_⟩
  · rw [handleProcessImage_eq cfg env fuel st file template hfile htemplate hnonempty hidle,
      processTry_eq]
    simp only [hsubmit, hid, hpoll, hfin]
    rfl
  · intro lg
    obtain ⟨lg1, h, _⟩ := poll_completed cfg env.poll (st.log.statusIdCounter + 1)
      k fuel lg s hfuel hin hproc hk hs hmsg hprog
    exact ⟨lg1, h⟩

/-- Witness of `completed_lifecycle`: the spec example, template "2" with
snapshots (30, "detecting"), (60, "swapping") and the completed one. -/
theorem completed_lifecycle_witness :
    ∃ final item,
      handleProcessImage (configWithPollTime 300000) exampleService 3 readyState
        = some (final, .completed (.obj completedSnapshot)) ∧
      final.session.isProcessing = false ∧
      final.log.entry 1 = some item ∧
      item.type = "completed" ∧
      item.resultUrl = some (.str "https://x/r.jpg") ∧
      item.templateName = some (.str "模板 2") :=
  match completed_lifecycle (configWithPollTime 300000) exampleService readyState
      ⟨"me.jpg", "image/jpeg", 204800⟩ "2" "0123456789abcdef"
      [("task_id", .str "0123456789abcdef")] completedSnapshot 2 3
      rfl rfl (by decide) rfl
      (fun x hx => by cases hx)
      (by rw [submitFaceSwapTask_eq]; rfl)
      rfl
      (fun i hi => by interval_cases i <;> rfl)
      (fun i hi => by interval_cases i <;> rfl)
      ⟨200, "OK", _, rfl, rfl, rfl⟩ rfl rfl rfl rfl rfl (by decide) with
  | ⟨final, item, h1, h2, h3, h4, h5, h6, _⟩ => ⟨final, item, h1, h2, h3, h4, h5, h6⟩

end FaceSwap
